import Mathlib

/-!
Verification model of the report-job orchestrator and job store of
`market-insight-agent` (files `storage/job_store.py` and
`pipeline/orchestrator.py`), shallowly embedded in Lean.

Timestamps are modelled as `Nat` ticks: the source stores ISO-8601 strings
produced by a monotone clock, and only uses them through order comparisons,
so any linearly ordered encoding is faithful.  JSON payloads that the store
treats opaquely (job input, job result) are modelled as `String`s.
-/

namespace MarketInsight

/-- First-match association lookup on a string-keyed list, mirroring a SQL
`SELECT ... WHERE key = ?` against a primary-key column. -/
def alookup {α : Type} : List (String × α) → String → Option α
  | [], _ => none
  | (k, v) :: rest, key => if k = key then some v else alookup rest key

/-- Python's `needle in haystack` substring test. -/
def strContains (haystack needle : String) : Bool :=
  haystack.data.tails.any (fun t => needle.data.isPrefixOf t)

/-- Python's `text[-t:]` slice: for `t = 0` it is the whole string
(`text[-0:]` is `text[0:]`), otherwise the last `t` characters (all of the
string when `t` is at least its length). -/
def pyTailSlice (t : Nat) (s : String) : String :=
  if t = 0 then s else String.mk (s.data.drop (s.data.length - t))

/-- The `progress_json` column: `{stage, completed_sections, total_sections}`
(job_store.py:283, orchestrator.py:1033-1039). -/
structure Progress where
  stage : String
  completedSections : Nat
  totalSections : Nat
deriving Repr, DecidableEq

/-- One row of the `jobs` table (job_store.py:60-73 plus the migrated
`idempotency_key` column, job_store.py:122-132). -/
structure JobRow where
  reportType : String
  status : String
  createdAt : Nat
  startedAt : Option Nat
  finishedAt : Option Nat
  inputJson : String
  errorCode : Option String
  errorMessage : Option String
  currentStage : String
  progress : Progress
  result : Option String
  idempotencyKey : Option String
deriving Repr, DecidableEq

/-- The row inserted by `JobStore.create_job` (job_store.py:261-287):
status `queued`, stage `queued`, progress `{queued, 0, 0}`, everything
else null. -/
def createdJob (reportType : String) (now : Nat) (inputJson : String)
    (idemKey : Option String) : JobRow :=
  { reportType := reportType
    status := "queued"
    createdAt := now
    startedAt := none
    finishedAt := none
    inputJson := inputJson
    errorCode := none
    errorMessage := none
    currentStage := "queued"
    progress := { stage := "queued", completedSections := 0, totalSections := 0 }
    result := none
    idempotencyKey := idemKey }

/-- The single-row update operations of `JobStore` (§4.1): each constructor
is one `UPDATE jobs SET ... WHERE job_id = ?` statement of job_store.py.
`append_section_log` / `save_artifact` / the read operations never touch a
job row and are therefore not represented here. -/
inductive StoreOp where
  /-- `mark_running` (job_store.py:341-350). -/
  | markRunning (now : Nat)
  /-- `mark_succeeded` (job_store.py:352-361). -/
  | markSucceeded (now : Nat) (resultJson : String)
  /-- `mark_failed` (job_store.py:363-379); `status` and `currentStage`
  default to `"failed"` at the call sites that omit them. -/
  | markFailed (now : Nat) (errorCode errorMessage status currentStage : String)
  /-- `cancel_job` (job_store.py:381-398): conditional on
  `status IN ('queued','running')`. -/
  | cancelJob (now : Nat)
  /-- `update_stage` (job_store.py:327-339): progress only written when a
  progress payload is supplied. -/
  | updateStage (stage : String) (progress : Option Progress)
  /-- `recover_stale_running_jobs` (job_store.py:238-259), restricted to
  one row: conditional on `status IN ('queued','running')`. -/
  | recoverStale (now : Nat)
deriving Repr, DecidableEq

/-- Effect of one store operation on one job row, transcribing the SQL
`SET` clauses of job_store.py.  `mark_running` uses
`COALESCE(started_at, now)`; `mark_succeeded` clears the error columns;
`mark_failed` does *not* clear `result_json`. -/
def applyOp : StoreOp → JobRow → JobRow
  | .markRunning now, r =>
      { r with status := "running"
               startedAt := some (r.startedAt.getD now)
               currentStage := "running" }
  | .markSucceeded now res, r =>
      { r with status := "succeeded"
               finishedAt := some now
               currentStage := "completed"
               result := some res
               errorCode := none
               errorMessage := none }
  | .markFailed now ec em status stage, r =>
      { r with status := status
               finishedAt := some now
               currentStage := stage
               errorCode := some ec
               errorMessage := some em }
  | .cancelJob now, r =>
      if r.status = "queued" ∨ r.status = "running" then
        { r with status := "cancelled"
                 finishedAt := some now
                 currentStage := "cancelled"
                 errorCode := some "cancelled"
                 errorMessage := some "Job cancelled by user" }
      else r
  | .updateStage stage progress, r =>
      { r with currentStage := stage, progress := progress.getD r.progress }
  | .recoverStale now, r =>
      if r.status = "queued" ∨ r.status = "running" then
        { r with status := "failed"
                 finishedAt := some now
                 currentStage := "failed"
                 errorCode := some "orchestrator_restarted"
                 errorMessage := some "服务重启导致任务中断，请重新提交生成任务" }
      else r

/-- A sequence of store operations applied in order to a row. -/
def applyOps (ops : List StoreOp) (r : JobRow) : JobRow :=
  ops.foldl (fun acc op => applyOp op acc) r

/-- `JobStore.get_result` on one row (job_store.py:472-477): the stored
`result_json`, with no status check (`mark_succeeded` always stores a JSON
object, so the `isinstance(result, dict)` guard accepts every stored
result). -/
def getResult (r : JobRow) : Option String :=
  r.result

/-- The statuses `mark_failed` is invoked with: its §4.1 contract and all
call sites use `failed` (default), `cancelled`, or `failed_quality_gate`
(the orchestrator's `QUALITY_STATUS`). -/
def validFailStatus (s : String) : Bool :=
  s = "failed" || s = "cancelled" || s = "failed_quality_gate"

/-- Every `markFailed` in the sequence carries one of the non-success
terminal statuses of §4.1. -/
def allFailStatusesValid (ops : List StoreOp) : Bool :=
  ops.all fun op =>
    match op with
    | .markFailed _ _ _ status _ => validFailStatus status
    | _ => true

/-- Recogniser for `markRunning` operations. -/
def isMarkRunning : StoreOp → Bool
  | .markRunning _ => true
  | _ => false

/-- `goodOpsFrom seenSucc ops`: all `markFailed` statuses are valid and no
`markRunning` or `markFailed` occurs after a `markSucceeded` (taking
`seenSucc` as whether a `markSucceeded` already happened).  This is how the
orchestrator drives the store: success is terminal for it. -/
def goodOpsFrom : Bool → List StoreOp → Bool
  | _, [] => true
  | _, .markSucceeded _ _ :: rest => goodOpsFrom true rest
  | seenSucc, .markRunning _ :: rest => !seenSucc && goodOpsFrom seenSucc rest
  | seenSucc, .markFailed _ _ _ status _ :: rest =>
      !seenSucc && validFailStatus status && goodOpsFrom seenSucc rest
  | seenSucc, .cancelJob _ :: rest => goodOpsFrom seenSucc rest
  | seenSucc, .updateStage _ _ :: rest => goodOpsFrom seenSucc rest
  | seenSucc, .recoverStale _ :: rest => goodOpsFrom seenSucc rest

/-- The result/status invariant of §3: `result` is non-null iff the status
is `succeeded`. -/
def resultInv (r : JobRow) : Prop :=
  r.result.isSome = true ↔ r.status = "succeeded"

/-- A jobs table: the `jobs` rows keyed by `job_id` (the primary key, so a
well-formed table has at most one entry per id; the update operations below
are `UPDATE ... WHERE job_id = ?` statements and touch every matching
entry, exactly as SQL would). -/
def JobTable : Type := List (String × JobRow)

/-- Apply a row-level operation to the row(s) with the given `job_id`,
leaving every other row untouched (`UPDATE jobs SET ... WHERE job_id = ?`).
A missing id is a silent no-op, as in SQLite. -/
def updateWhere (jobs : JobTable) (jobId : String) (f : JobRow → JobRow) : JobTable :=
  jobs.map fun p => (p.1, if p.1 = jobId then f p.2 else p.2)

/-- `JobStore.update_stage` over the table (job_store.py:327-339). -/
def updateStageTable (jobs : JobTable) (jobId stage : String)
    (progress : Option Progress) : JobTable :=
  updateWhere jobs jobId (applyOp (.updateStage stage progress))

/-- `JobStore.mark_failed` over the table (job_store.py:363-379). -/
def markFailedTable (jobs : JobTable) (jobId : String) (now : Nat)
    (errorCode errorMessage status stage : String) : JobTable :=
  updateWhere jobs jobId (applyOp (.markFailed now errorCode errorMessage status stage))

/-- One live idempotency claim: a row of `job_idempotency`
(job_store.py:105-111). -/
structure IdemClaim where
  payloadHash : String
  jobId : String
  createdAt : Nat
  expiresAt : Nat
deriving Repr, DecidableEq

/-- The claims table keyed by `idempotency_key` (primary key). -/
def ClaimTable : Type := List (String × IdemClaim)

/-- `DELETE FROM job_idempotency WHERE expires_at <= ?` with the current
time as parameter (job_store.py:180): keeps exactly the live claims. -/
def purgeExpired (now : Nat) (claims : ClaimTable) : ClaimTable :=
  claims.filter fun p => decide (now < p.2.expiresAt)

/-- `JobStore.release_idempotency` (job_store.py:224-236): deletes the
claim for `key`, restricted to a specific `job_id` when one is given. -/
def releaseIdempotency (claims : ClaimTable) (key : String)
    (jobId : Option String) : ClaimTable :=
  match jobId with
  | some j => claims.filter fun p => !(p.1 = key ∧ p.2.jobId = j : Bool)
  | none => claims.filter fun p => !(p.1 = key : Bool)

/-- Outcome tag of `JobStore.claim_idempotency`. -/
inductive ClaimStatus where
  | claimed
  | replay
  | conflict
deriving Repr, DecidableEq

/-- `{"status": ..., "job_id": ...}` returned by `claim_idempotency`. -/
structure ClaimResult where
  status : ClaimStatus
  jobId : String
deriving Repr, DecidableEq

/-- `JobStore.claim_idempotency` (job_store.py:163-222).  The expired rows
are purged first; an `INSERT` succeeds iff no row with the key survives the
purge; on a key collision the existing claim is consulted: if its job row
no longer exists the stale claim is replaced and the call claims
(`claimed`), otherwise an equal payload hash is a `replay` and a different
one a `conflict`, both leaving the live claims untouched.  The TTL is
`max(1, idempotency_ttl_seconds)` (job_store.py:177).  (The source's
re-read returning `None` right after a failed `INSERT` is unreachable for a
single writer and is not represented.) -/
def claimIdempotency (now ttl : Nat) (key payloadHash jobId : String)
    (jobs : JobTable) (claims : ClaimTable) : ClaimResult × ClaimTable :=
  let purged := purgeExpired now claims
  let fresh : IdemClaim :=
    { payloadHash := payloadHash, jobId := jobId
      createdAt := now, expiresAt := now + max 1 ttl }
  match alookup purged key with
  | none => (⟨.claimed, jobId⟩, (key, fresh) :: purged)
  | some existing =>
    match alookup jobs existing.jobId with
    | none =>
        (⟨.claimed, jobId⟩,
         (key, fresh) :: purged.filter fun p => !(p.1 = key : Bool))
    | some _ =>
        if existing.payloadHash = payloadHash then
          (⟨.replay, existing.jobId⟩, purged)
        else
          (⟨.conflict, existing.jobId⟩, purged)

/-- `ReportJobSpec` (pipeline/models.py:10-21). -/
structure ReportJobSpec where
  reportType : String
  brandName : String
  category : String
  competitors : List String
  templateName : String
  useLlm : Bool
  strictLlm : Bool
  enableWebSearch : Bool
deriving Repr, DecidableEq

def jsonOfStr (s : String) : String := "\"" ++ s ++ "\""

def jsonOfBool (b : Bool) : String := if b then "true" else "false"

def jsonOfStrList (xs : List String) : String :=
  "[" ++ String.intercalate "," (xs.map jsonOfStr) ++ "]"

/-- `_canonical_payload_hash` (orchestrator.py:271-274): the key-sorted,
compact JSON serialization of `asdict(spec)`
(`json.dumps(payload, sort_keys=True, separators=(",", ":"))`).  The model
uses the canonical text itself in place of its SHA-256 digest: the digest
only serves as an equality token for the serialized payload, and hash
collisions are outside the model.  (String escaping inside values is
elided; it does not affect equality of serialized payloads.) -/
def canonicalPayloadHash (s : ReportJobSpec) : String :=
  "\x7b" ++ String.intercalate ","
    ["\"brand_name\":" ++ jsonOfStr s.brandName,
     "\"category\":" ++ jsonOfStr s.category,
     "\"competitors\":" ++ jsonOfStrList s.competitors,
     "\"enable_web_search\":" ++ jsonOfBool s.enableWebSearch,
     "\"report_type\":" ++ jsonOfStr s.reportType,
     "\"strict_llm\":" ++ jsonOfBool s.strictLlm,
     "\"template_name\":" ++ jsonOfStr s.templateName,
     "\"use_llm\":" ++ jsonOfBool s.useLlm] ++ "\x7d"

/-- The admission errors `submit_brand_health_job` can raise (§7):
`AppError(SYSTEM_SHUTTING_DOWN)`, `AppError(JOB_IDEMPOTENCY_CONFLICT)`
carrying the existing job id, `AppError(JOB_QUEUE_FULL)` carrying
`retry_after_seconds`, and a re-raised `create_job` failure. -/
inductive SubmitError where
  | serviceUnavailable
  | idempotencyConflict (existingJobId : String)
  | queueFull (retryAfterSeconds : Nat)
  | createFailed
deriving Repr, DecidableEq

/-- The success payload of `submit_brand_health_job`
(orchestrator.py:219-225 and 264-269); `idempotentHit` is the
`idempotent_hit` flag (absent means `false`). -/
structure SubmitOk where
  jobId : String
  status : String
  reportType : String
  idempotentHit : Bool
deriving Repr, DecidableEq

/-- The orchestrator state that `submit_brand_health_job` reads and writes:
the durable jobs and claims tables, the bounded in-memory queue (entries
`(job_id, spec)`), its capacity `max_queued_jobs`, and the shutdown flag. -/
structure OrchSubmitState where
  jobs : JobTable
  claims : ClaimTable
  queue : List (String × ReportJobSpec)
  queueCap : Nat
  shuttingDown : Bool

/-- The create-and-enqueue phase of `submit_brand_health_job`
(orchestrator.py:238-269): persist the job (releasing the idempotency
claim and re-raising if the insert fails), then `put_nowait`; a full queue
(`len >= maxsize`, capacity positive) marks the job `failed`/`queue_full`,
releases the claim, and raises `QueueFull` with a 30-second retry hint. -/
def submitCreatePhase (st : OrchSubmitState) (spec : ReportJobSpec)
    (idempotencyKey : Option String) (jobId : String) (now : Nat) :
    Except SubmitError SubmitOk × OrchSubmitState :=
  match alookup st.jobs jobId with
  | some _ =>
      (.error .createFailed,
       { st with claims :=
           match idempotencyKey with
           | some key => releaseIdempotency st.claims key (some jobId)
           | none => st.claims })
  | none =>
    let jobs1 : JobTable :=
      (jobId, createdJob spec.reportType now (canonicalPayloadHash spec) idempotencyKey)
        :: st.jobs
    if st.queue.length ≥ st.queueCap then
      (.error (.queueFull 30),
       { st with
           jobs := markFailedTable jobs1 jobId now "queue_full" "任务队列已满" "failed" "failed"
           claims :=
             match idempotencyKey with
             | some key => releaseIdempotency st.claims key (some jobId)
             | none => st.claims })
    else
      (.ok { jobId := jobId, status := "queued"
             reportType := spec.reportType, idempotentHit := false },
       { st with jobs := jobs1, queue := st.queue ++ [(jobId, spec)] })

/-- `submit_brand_health_job` (orchestrator.py:183-269).  `jobId` is the
freshly generated id (timestamp + random suffix, generated before the
idempotency claim), `now` the submission time, `ttl` the configured
idempotency TTL.  Mirrors the source's phases: shutdown check, idempotency
claim (replay returns the existing job without creating work; a stale
replay whose job row vanished releases the key and continues as a fresh
submission; conflict raises), then create + enqueue. -/
def submitBrandHealthJob (st : OrchSubmitState) (spec : ReportJobSpec)
    (idempotencyKey : Option String) (jobId : String) (now ttl : Nat) :
    Except SubmitError SubmitOk × OrchSubmitState :=
  if st.shuttingDown then (.error .serviceUnavailable, st)
  else
    match idempotencyKey with
    | none => submitCreatePhase st spec none jobId now
    | some key =>
      let payloadHash := canonicalPayloadHash spec
      let claimOut := claimIdempotency now ttl key payloadHash jobId st.jobs st.claims
      let st1 : OrchSubmitState := { st with claims := claimOut.2 }
      match claimOut.1.status with
      | .conflict => (.error (.idempotencyConflict claimOut.1.jobId), st1)
      | .replay =>
        match alookup st1.jobs claimOut.1.jobId with
        | some existing =>
            (.ok { jobId := claimOut.1.jobId, status := existing.status
                   reportType := existing.reportType, idempotentHit := true }, st1)
        | none =>
            submitCreatePhase
              { st1 with claims := releaseIdempotency st1.claims key none }
              spec (some key) jobId now
      | .claimed => submitCreatePhase st1 spec (some key) jobId now

/-- A run of key-less submissions (used to fill the queue): each element of
`jids` is submitted in order with no idempotency key. -/
def submitMany (st : OrchSubmitState) (jids : List String)
    (spec : ReportJobSpec) (now ttl : Nat) : OrchSubmitState :=
  jids.foldl (fun s j => (submitBrandHealthJob s spec none j now ttl).2) st

/-- `ErrorCode.SYSTEM_SHUTTING_DOWN.value` (errors.py:65): the enum member
values equal the member names. -/
def systemShuttingDownCode : String := "SYSTEM_SHUTTING_DOWN"

/-- The durable state touched by the shutdown drain: jobs, claims, and the
ids still sitting in the queue. -/
structure DrainState where
  jobs : JobTable
  claims : ClaimTable
  queue : List String

/-- `_cancel_queued_jobs_due_to_shutdown` (orchestrator.py:129-146): pop
every queued entry and run
`mark_failed(job_id, error_code=SYSTEM_SHUTTING_DOWN, status="cancelled",
current_stage="cancelled")` on it.  No idempotency claim is touched. -/
def cancelQueuedJobsDueToShutdown (now : Nat) (s : DrainState) : DrainState :=
  { jobs :=
      s.queue.foldl
        (fun acc jobId =>
          markFailedTable acc jobId now systemShuttingDownCode
            "服务关闭导致任务未开始执行" "cancelled" "cancelled")
        s.jobs
    claims := s.claims
    queue := [] }

/-- `int(budget_chars * 0.6)` (orchestrator.py:648).  For every budget
exactly representable as a double (all realistic budgets; the source always
passes 8000) the float truncation agrees with `3 * b / 5` in `Nat`
arithmetic, since `0.6`'s double is below `3/5` by less than half an ulp of
any product. -/
def headSize (budgetChars : Nat) : Nat := 3 * budgetChars / 5

/-- `int(budget_chars * 0.25)` (orchestrator.py:649); `0.25` is exact in
binary, so this is `b / 4` exactly. -/
def tailSize (budgetChars : Nat) : Nat := budgetChars / 4

/-- Result of `_compress_context`: either the raw context dict returned
unchanged, or the truncation payload
`{_truncated: True, head, tail, original_length, budget_chars}`. -/
inductive CompressResult where
  | unchanged (context : String)
  | truncated (head tail : String) (originalLength budgetChars : Nat)
deriving Repr, DecidableEq

/-- `_compress_context` (orchestrator.py:639-656).  The raw context dict is
modelled by its serialization `text = json.dumps(context)`, which fully
determines the function's behaviour: the dict is returned unchanged iff
`len(text) <= budget_chars`, else the head/tail truncation record is
built (`text[:head_size]` and `text[-tail_size:]`). -/
def compressContext (context : String) (budgetChars : Nat) : CompressResult :=
  let text := context
  if text.length ≤ budgetChars then .unchanged context
  else
    .truncated (String.mk (text.data.take (headSize budgetChars)))
      (pyTailSlice (tailSize budgetChars) text)
      text.length budgetChars

/-- The fields of `SectionDraft` (pipeline/models.py:48-61) read by the
verifier: `summary`, `key_points`, `action_items`, `metrics` (only its
length is used); `citations`/`attempt`/`model_name` are diagnostic only. -/
structure SectionDraft where
  sectionId : String
  sectionTitle : String
  summary : String
  keyPoints : List String
  actionItems : List String
  metrics : List String
deriving Repr, DecidableEq

/-- `SectionPlan` (pipeline/models.py:24-33). -/
structure SectionPlan where
  sectionId : String
  sectionTitle : String
  objective : String
  requiredInformationBlocks : List String
  minDensity : Nat
  forbiddenTerms : List String
deriving Repr, DecidableEq

/-- The verification dict built by `_verify_section_draft`; of `metrics`
the model keeps the two entries the claims touch (`density`,
`min_density`). -/
structure VerifyResult where
  sectionId : String
  passed : Bool
  errorCode : Option String
  reasons : List String
  density : Nat
  minDensity : Nat
deriving Repr, DecidableEq

/-- `" ".join([draft.summary, *draft.key_points, *draft.action_items]).lower()`
(orchestrator.py:796).  `String.toLower` lower-cases ASCII letters, which
covers every cased character the plans' forbidden terms contain. -/
def combinedDraftText (draft : SectionDraft) : String :=
  (String.intercalate " " (draft.summary :: (draft.keyPoints ++ draft.actionItems))).toLower

/-- `_verify_section_draft` (orchestrator.py:778-809): collect a
`density_low` reason when `key_points + action_items` falls below the
plan's minimum density (3 when no plan matches), then a `forbidden_terms`
reason when the plan has forbidden terms and one of them occurs
(lower-cased) in the joined section text; the draft passes iff no reason
was collected, and `error_code` is the first reason otherwise. -/
def verifySectionDraft (draft : SectionDraft) (plan : Option SectionPlan) : VerifyResult :=
  let minDensity := match plan with | some p => p.minDensity | none => 3
  let density := draft.keyPoints.length + draft.actionItems.length
  let densityReasons : List String :=
    if density < minDensity then ["density_low"] else []
  let leaked : List String :=
    match plan with
    | some p =>
        if p.forbiddenTerms.isEmpty then []
        else p.forbiddenTerms.filter fun term =>
          strContains (combinedDraftText draft) term.toLower
    | none => []
  let reasons := densityReasons ++ (if leaked.isEmpty then [] else ["forbidden_terms"])
  { sectionId := draft.sectionId
    passed := reasons.isEmpty
    errorCode := reasons.head?
    reasons := reasons
    density := density
    minDensity := minDensity }

/-- `ReportGenerator.WASHCARE_CATEGORY_MARKERS` (report_generator.py:30-32). -/
def washcareCategoryMarkers : List String :=
  ["洗发", "去屑", "头皮", "护发", "洗护", "发膜", "发丝", "控油", "止痒", "蓬松"]

/-- The banned cross-category terms of the final gate
(orchestrator.py:842), already lower-cased in the source. -/
def bannedTerms : List String := ["清扬", "kono", "spes", "去屑", "头皮", "洗发"]

/-- `any(marker in category.lower() for marker in WASHCARE_CATEGORY_MARKERS)`
(orchestrator.py:843). -/
def isWashcareCategory (category : String) : Bool :=
  washcareCategoryMarkers.any fun marker => strContains category.toLower marker

/-- Per-section generation diagnostics consumed by the final gate: the
fields of the `llm_sections` dicts it reads (orchestrator.py:878-918).
`none` models an absent / `None` / non-numeric entry, which every check
skips. -/
structure LlmSectionDiag where
  sectionId : String
  similarityRatio : Option ℚ
  inlineSourceOk : Option Bool
  structureRetentionRatio : Option ℚ
  emptyBlockCount : Option Int
deriving Repr, DecidableEq

/-- The thresholds the gate reads: `section_min_text_len` (default 180),
`structure_fidelity_threshold` (default 0.90, config.py:41-42) and the
generator's `TEMPLATE_SIMILARITY_THRESHOLD` (0.65, report_generator.py:27).
Float thresholds and ratios are modelled as rationals: the gate only
compares them. -/
structure GateConfig where
  sectionMinTextLen : Nat
  structureFidelityThreshold : ℚ
  templateSimilarityThreshold : ℚ
deriving Repr, DecidableEq

/-- The inputs of `_run_final_quality_gate` (orchestrator.py:811-946),
with the DOM extractions (document text, actual `h2.section-title` texts,
per-section text lengths, structure-fidelity score) provided as values:
BeautifulSoup parsing is an external collaborator per §1. -/
structure GateInput where
  htmlContent : String
  docText : String
  expectedTitles : List String
  actualTitles : List String
  category : String
  sectionTextLengths : List Nat
  draftVerifications : List VerifyResult
  llmSections : List LlmSectionDiag
  structureFidelityScore : ℚ
deriving Repr, DecidableEq

/-- The gate's result: `{passed, failures}` (`metrics` additionally echoes
the intermediate values; it carries no further decision content). -/
structure GateOutput where
  passed : Bool
  failures : List String
deriving Repr, DecidableEq

/-- `_run_final_quality_gate` (orchestrator.py:811-946): eleven independent
checks, each appending one named failure reason, evaluated in source order
with no early exit; `passed` is `len(failures) == 0`. -/
def runFinalQualityGate (cfg : GateConfig) (inp : GateInput) : GateOutput :=
  let f1 : List String :=
    if strContains inp.htmlContent "llm-placeholder" then ["contains_llm_placeholder"] else []
  let f2 : List String :=
    if strContains inp.docText "暂时无法生成" || strContains inp.docText "正在生成" then
      ["contains_fallback_placeholder_text"] else []
  let f3 : List String :=
    if inp.actualTitles.take inp.expectedTitles.length ≠ inp.expectedTitles then
      ["title_order_mismatch"] else []
  let leakedTerms : List String :=
    if isWashcareCategory inp.category then []
    else bannedTerms.filter fun term => strContains inp.docText.toLower term
  let f4 : List String :=
    if leakedTerms.isEmpty then [] else ["category_pollution_terms"]
  let f5 : List String :=
    if inp.sectionTextLengths.any (fun len => len < cfg.sectionMinTextLen) then
      ["section_text_too_short"] else []
  let failedDrafts := inp.draftVerifications.filter fun v => !v.passed
  let f6 : List String :=
    if failedDrafts.isEmpty then [] else ["draft_verification_failed"]
  let similarityFlags := inp.llmSections.filter fun s =>
    match s.similarityRatio with
    | none => false
    | some ratio => decide (cfg.templateSimilarityThreshold ≤ ratio)
  let f7 : List String :=
    if similarityFlags.isEmpty then [] else ["template_similarity_high"]
  let inlineFailures := inp.llmSections.filter fun s => s.inlineSourceOk == some false
  let f8 : List String :=
    if inlineFailures.isEmpty then [] else ["missing_inline_sources"]
  let retentionFailures := inp.llmSections.filter fun s =>
    match s.structureRetentionRatio with
    | none => false
    | some ratio => decide (ratio < cfg.structureFidelityThreshold)
  let f9 : List String :=
    if retentionFailures.isEmpty then [] else ["structure_retention_low"]
  let emptyBlockWarnings := inp.llmSections.filter fun s =>
    match s.emptyBlockCount with
    | none => false
    | some count => decide (0 < count)
  let f10 : List String :=
    if emptyBlockWarnings.isEmpty then [] else ["empty_blocks_detected"]
  let f11 : List String :=
    if inp.structureFidelityScore < cfg.structureFidelityThreshold then
      ["structure_fidelity_low"] else []
  let failures := f1 ++ f2 ++ f3 ++ f4 ++ f5 ++ f6 ++ f7 ++ f8 ++ f9 ++ f10 ++ f11
  { passed := failures.isEmpty, failures := failures }

/-- The row-status-relevant atomic actions of `_run_job_sync`
(orchestrator.py:320-569), executed by the pipeline thread
(`asyncio.to_thread`): the initial `mark_running` (line 321), the
`_is_cancelled` early-return checks (lines 323, 343, 363 and — last — 385,
all *before* the writer stage), and the unconditional `mark_succeeded`
(line 567).  Stage updates, artifact writes and section logs do not touch
the status column and are elided; the quality-gate `mark_failed` branch
(lines 506-521) is likewise irrelevant to the success trace. -/
inductive PStep where
  | markRunningStep
  | cancelCheck
  | markSucceededStep
deriving Repr, DecidableEq

/-- The pipeline thread's program: `mark_running`, the four cancellation
checkpoints, then `mark_succeeded` with no checkpoint in between. -/
def pipelineProgram : List PStep :=
  [.markRunningStep, .cancelCheck, .cancelCheck, .cancelCheck, .cancelCheck,
   .markSucceededStep]

/-- State of one submitted job inside the orchestrator's concurrency
machinery: its store row, whether its queue entry is still pending, the
remaining program of the pipeline thread (`none`: no thread running), and
whether a delivered `task.cancel` has a `CancelledError` handler
(orchestrator.py:292-302) still to run. -/
structure CancelModelState where
  row : JobRow
  inQueue : Bool
  thread : Option (List PStep)
  handlerPending : Bool
deriving Repr, DecidableEq

/-- Interleaved small-step semantics of cancellation:

* `cancelRequest` — `cancel_job` (orchestrator.py:1113-1122): the store
  flips `queued`/`running` to `cancelled` (otherwise a no-op), and when the
  transition happened and a task is tracked, `task.cancel()` schedules the
  `CancelledError` handler.  `asyncio.to_thread`'s worker thread is *not*
  interrupted: the `thread` component keeps running.
* `dequeueSkip` / `dequeueRun` — the worker loop (orchestrator.py:148-177):
  a dequeued job found cancelled is skipped; otherwise the pipeline thread
  is started.
* `threadMarkRunning` / `threadCheckCancelled` / `threadCheckClear` /
  `threadMarkSucceeded` — the thread executes its next atomic action; a
  cancellation checkpoint that observes status `cancelled` returns early.
* `cancelHandler` — the `except asyncio.CancelledError` branch of
  `_run_job` (orchestrator.py:292-302): re-marks the row cancelled only if
  its status is not already `cancelled`. -/
inductive CancelStep : CancelModelState → CancelModelState → Prop where
  | cancelRequest (s : CancelModelState) (now : Nat) :
      CancelStep s
        { s with
            row := applyOp (.cancelJob now) s.row
            handlerPending :=
              s.handlerPending ||
                (s.thread.isSome &&
                  (s.row.status = "queued" ∨ s.row.status = "running" : Bool)) }
  | dequeueSkip (s : CancelModelState) :
      s.inQueue = true → s.row.status = "cancelled" →
      CancelStep s { s with inQueue := false }
  | dequeueRun (s : CancelModelState) :
      s.inQueue = true → ¬ s.row.status = "cancelled" →
      CancelStep s { s with inQueue := false, thread := some pipelineProgram }
  | threadMarkRunning (s : CancelModelState) (rest : List PStep) (now : Nat) :
      s.thread = some (.markRunningStep :: rest) →
      CancelStep s { s with row := applyOp (.markRunning now) s.row, thread := some rest }
  | threadCheckCancelled (s : CancelModelState) (rest : List PStep) :
      s.thread = some (.cancelCheck :: rest) → s.row.status = "cancelled" →
      CancelStep s { s with thread := none }
  | threadCheckClear (s : CancelModelState) (rest : List PStep) :
      s.thread = some (.cancelCheck :: rest) → ¬ s.row.status = "cancelled" →
      CancelStep s { s with thread := some rest }
  | threadMarkSucceeded (s : CancelModelState) (rest : List PStep) (now : Nat)
      (res : String) :
      s.thread = some (.markSucceededStep :: rest) →
      CancelStep s { s with row := applyOp (.markSucceeded now res) s.row, thread := none }
  | cancelHandler (s : CancelModelState) (now : Nat) :
      s.handlerPending = true →
      CancelStep s
        { s with
            row :=
              if s.row.status = "cancelled" then s.row
              else applyOp (.markFailed now "cancelled" "任务被取消" "cancelled" "cancelled") s.row
            handlerPending := false }

/-- A freshly submitted job before any worker touches it: row `queued`,
entry in the queue, no pipeline thread, no pending cancellation handler. -/
def c2State0 : CancelModelState :=
  { row := createdJob "brand_health" 0 "input" none
    inQueue := true, thread := none, handlerPending := false }

/-- After the worker dequeues the job and starts the pipeline thread. -/
def c2State1 : CancelModelState :=
  { c2State0 with inQueue := false, thread := some pipelineProgram }

/-- After the thread runs `mark_running`. -/
def c2State2 : CancelModelState :=
  { c2State1 with
      row := applyOp (.markRunning 1) c2State1.row
      thread := some [.cancelCheck, .cancelCheck, .cancelCheck, .cancelCheck,
                      .markSucceededStep] }

/-- After the first cancellation checkpoint passes (status `running`). -/
def c2State3 : CancelModelState :=
  { c2State2 with
      thread := some [.cancelCheck, .cancelCheck, .cancelCheck, .markSucceededStep] }

def c2State4 : CancelModelState :=
  { c2State3 with thread := some [.cancelCheck, .cancelCheck, .markSucceededStep] }

def c2State5 : CancelModelState :=
  { c2State4 with thread := some [.cancelCheck, .markSucceededStep] }

/-- Past the last checkpoint (orchestrator.py:385): the thread is inside
the writer/verifier/gate stretch, about to `mark_succeeded`. -/
def c2State6 : CancelModelState :=
  { c2State5 with thread := some [.markSucceededStep] }

/-- `cancel_job` arrives while the job is `running`: the store flips the
row to `cancelled` and `task.cancel()` schedules the handler. -/
def c2State7 : CancelModelState :=
  { c2State6 with
      row := applyOp (.cancelJob 7) c2State6.row
      handlerPending :=
        c2State6.handlerPending ||
          (c2State6.thread.isSome &&
            (c2State6.row.status = "queued" ∨ c2State6.row.status = "running" : Bool)) }

/-- The `CancelledError` handler runs and finds the row already
`cancelled`, so it changes nothing; the thread keeps running. -/
def c2State8 : CancelModelState :=
  { c2State7 with
      row :=
        if c2State7.row.status = "cancelled" then c2State7.row
        else applyOp (.markFailed 8 "cancelled" "任务被取消" "cancelled" "cancelled") c2State7.row
      handlerPending := false }

/-- The detached thread finishes and runs the unconditional
`mark_succeeded`, overwriting the cancellation. -/
def c2State9 : CancelModelState :=
  { c2State8 with
      row := applyOp (.markSucceeded 9 "result-payload") c2State8.row
      thread := none }

theorem alookup_cons_self {α : Type} (k : String) (v : α) (l : List (String × α)) :
    alookup ((k, v) :: l) k = some v := by
  simp [alookup]

theorem alookup_eq_none {α : Type} (l : List (String × α)) (k : String) :
    alookup l k = none ↔ ∀ v : α, (k, v) ∉ l := by
  induction l with
  | nil => simp [alookup]
  | cons p rest ih =>
    obtain ⟨k', v'⟩ := p
    by_cases h : k' = k
    · subst h
      simp only [alookup, if_pos rfl]
      constructor
      · intro hnone
        exact absurd hnone (Option.some_ne_none v')
      · intro hall
        exact absurd (List.mem_cons_self (k', v') rest) (hall v')
    · simp only [alookup, if_neg h, ih]
      constructor
      · intro hall v hv
        rcases List.mem_cons.mp hv with heq | hmem
        · exact h (congrArg Prod.fst heq).symm
        · exact hall v hmem
      · intro hall v hv
        exact hall v (List.mem_cons_of_mem _ hv)

theorem alookup_filter_none {α : Type} (l : List (String × α)) (f : String × α → Bool)
    (k : String) (h : alookup l k = none) : alookup (l.filter f) k = none := by
  rw [alookup_eq_none] at h ⊢
  intro v hv
  exact h v (List.mem_of_mem_filter hv)

theorem alookup_updateWhere (jobs : JobTable) (jobId : String) (f : JobRow → JobRow)
    (k : String) :
    alookup (updateWhere jobs jobId f) k =
      (alookup jobs k).map (fun r => if k = jobId then f r else r) := by
  induction jobs with
  | nil => rfl
  | cons p rest ih =>
    obtain ⟨k', r'⟩ := p
    by_cases h : k' = k
    · subst h
      simp [updateWhere, alookup]
    · simp only [updateWhere, List.map_cons, alookup, if_neg h]
      exact ih

theorem resultInv_applyOps (ops : List StoreOp) :
    ∀ (b : Bool) (r : JobRow), goodOpsFrom b ops = true → resultInv r →
      (r.status = "succeeded" → b = true) → resultInv (applyOps ops r) := by
  induction ops with
  | nil => intro b r _ hinv _; simpa [applyOps] using hinv
  | cons op rest ih =>
    intro b r hgood hinv himp
    have hstep : applyOps (op :: rest) r = applyOps rest (applyOp op r) := rfl
    rw [hstep]
    cases op with
    | markRunning now =>
      rw [goodOpsFrom, Bool.and_eq_true, Bool.not_eq_true'] at hgood
      obtain ⟨hb, hrest⟩ := hgood
      subst hb
      have hnotsucc : ¬ r.status = "succeeded" :=
        fun h => absurd (himp h) (by decide)
      have hres : r.result.isSome = false := by
        cases h : r.result.isSome with
        | false => rfl
        | true => exact absurd (hinv.mp h) hnotsucc
      refine ih false _ hrest ?_ (by simp [applyOp])
      simp [applyOp, resultInv, hres]
    | markSucceeded now res =>
      rw [goodOpsFrom] at hgood
      refine ih true _ hgood ?_ (by simp)
      simp [applyOp, resultInv]
    | markFailed now ec em status stage =>
      rw [goodOpsFrom, Bool.and_eq_true, Bool.and_eq_true, Bool.not_eq_true'] at hgood
      obtain ⟨⟨hb, hvalid⟩, hrest⟩ := hgood
      subst hb
      have hnotsucc : ¬ r.status = "succeeded" :=
        fun h => absurd (himp h) (by decide)
      have hres : r.result.isSome = false := by
        cases h : r.result.isSome with
        | false => rfl
        | true => exact absurd (hinv.mp h) hnotsucc
      have hstatus : ¬ status = "succeeded" := by
        rw [validFailStatus, Bool.or_eq_true, Bool.or_eq_true] at hvalid
        rcases hvalid with (h | h) | h <;>
          · rw [decide_eq_true_eq] at h; subst h; decide
      refine ih false _ hrest ?_ ?_
      · simp only [applyOp, resultInv]
        simp [hres]
        exact fun h => absurd h hstatus
      · intro h
        exact absurd h hstatus
    | cancelJob now =>
      rw [goodOpsFrom] at hgood
      by_cases hq : r.status = "queued" ∨ r.status = "running"
      · have hnotsucc : ¬ r.status = "succeeded" := by
          rcases hq with h | h <;> · rw [h]; decide
        have hres : r.result.isSome = false := by
          cases h : r.result.isSome with
          | false => rfl
          | true => exact absurd (hinv.mp h) hnotsucc
        refine ih b _ hgood ?_ ?_
        · simp [applyOp, hq, resultInv, hres]
        · simp [applyOp, hq]
      · refine ih b _ hgood ?_ ?_
        · simpa [applyOp, hq] using hinv
        · simpa [applyOp, hq] using himp
    | updateStage stage progress =>
      rw [goodOpsFrom] at hgood
      refine ih b _ hgood ?_ ?_
      · simpa [applyOp, resultInv] using hinv
      · simpa [applyOp] using himp
    | recoverStale now =>
      rw [goodOpsFrom] at hgood
      by_cases hq : r.status = "queued" ∨ r.status = "running"
      · have hnotsucc : ¬ r.status = "succeeded" := by
          rcases hq with h | h <;> · rw [h]; decide
        have hres : r.result.isSome = false := by
          cases h : r.result.isSome with
          | false => rfl
          | true => exact absurd (hinv.mp h) hnotsucc
        refine ih b _ hgood ?_ ?_
        · simp [applyOp, hq, resultInv, hres]
        · simp [applyOp, hq]
      · refine ih b _ hgood ?_ ?_
        · simpa [applyOp, hq] using hinv
        · simpa [applyOp, hq] using himp

/-- C10: `update_stage(job_id, stage, progress?)` rewrites only the target
row's `current_stage` (and `progress` when a progress payload is
supplied, otherwise `progress` is kept), leaving the row's `status`,
`created_at`, `started_at`, `finished_at`, `error_code`, `error_message`,
`result` and remaining columns unchanged, and leaving every other job row
untouched. -/
theorem update_stage_frame (jobs : JobTable) (jobId stage : String)
    (progress : Option Progress) :
    (∀ j r, alookup jobs j = some r → j ≠ jobId →
        alookup (updateStageTable jobs jobId stage progress) j = some r) ∧
    (∀ r, alookup jobs jobId = some r →
        alookup (updateStageTable jobs jobId stage progress) jobId =
          some { r with currentStage := stage, progress := progress.getD r.progress }) := by
  constructor
  · intro j r hj hne
    rw [updateStageTable, alookup_updateWhere, hj]
    have hmap : Option.map
        (fun r => if j = jobId then applyOp (.updateStage stage progress) r else r)
        (some r) = some (if j = jobId then applyOp (.updateStage stage progress) r else r) := rfl
    rw [hmap, if_neg hne]
  · intro r hj
    rw [updateStageTable, alookup_updateWhere, hj]
    have hmap : Option.map
        (fun r => if jobId = jobId then applyOp (.updateStage stage progress) r else r)
        (some r) = some (if jobId = jobId then applyOp (.updateStage stage progress) r else r) := rfl
    rw [hmap, if_pos rfl]
    rfl

/-- Closed instance of `update_stage_frame`, discharging its lookup
hypotheses on a concrete two-row table. -/
theorem update_stage_frame_witness :
    (alookup [("job-a", createdJob "brand_health" 0 "inA" none),
              ("job-b", createdJob "brand_health" 1 "inB" none)] "job-b" =
        some (createdJob "brand_health" 1 "inB" none) ∧
      ("job-b" : String) ≠ "job-a" ∧
      alookup [("job-a", createdJob "brand_health" 0 "inA" none),
               ("job-b", createdJob "brand_health" 1 "inB" none)] "job-a" =
        some (createdJob "brand_health" 0 "inA" none)) ∧
    alookup
        (updateStageTable
          [("job-a", createdJob "brand_health" 0 "inA" none),
           ("job-b", createdJob "brand_health" 1 "inB" none)]
          "job-a" "planner" (some ⟨"planner", 0, 5⟩)) "job-b" =
      some (createdJob "brand_health" 1 "inB" none) ∧
    alookup
        (updateStageTable
          [("job-a", createdJob "brand_health" 0 "inA" none),
           ("job-b", createdJob "brand_health" 1 "inB" none)]
          "job-a" "planner" (some ⟨"planner", 0, 5⟩)) "job-a" =
      some { createdJob "brand_health" 0 "inA" none with
              currentStage := "planner"
              progress := ⟨"planner", 0, 5⟩ } :=
  ⟨⟨rfl, by decide, rfl⟩,
   (update_stage_frame _ "job-a" "planner" (some ⟨"planner", 0, 5⟩)).1
     "job-b" _ rfl (by decide),
   (update_stage_frame _ "job-a" "planner" (some ⟨"planner", 0, 5⟩)).2 _ rfl⟩

/-- C7: the compressor returns the raw context unchanged when its
serialization fits the byte budget; an oversized payload becomes a record
tagged by the `truncated` marker whose `head` is a prefix and whose `tail`
is a suffix of the serialized payload (head-and-tail truncation, recording
the original length and budget), rather than a cut of the end alone. -/
theorem compress_context_spec (context : String) (budgetChars : Nat) :
    (context.length ≤ budgetChars →
      compressContext context budgetChars = .unchanged context) ∧
    (budgetChars < context.length →
      ∃ head tail,
        compressContext context budgetChars =
          .truncated head tail context.length budgetChars ∧
        head.data ++ context.data.drop (headSize budgetChars) = context.data ∧
        head.data.length = min (headSize budgetChars) context.data.length ∧
        (∃ pre, pre ++ tail.data = context.data) ∧
        tail.data.length =
          (if tailSize budgetChars = 0 then context.data.length
           else min (tailSize budgetChars) context.data.length)) := by
  constructor
  · intro hle
    rw [compressContext, if_pos hle]
  · intro hgt
    have hnle : ¬ context.length ≤ budgetChars := Nat.not_le_of_lt hgt
    rw [compressContext]
    rw [if_neg hnle]
    refine ⟨_, _, rfl, List.take_append_drop _ _, by simp [List.length_take], ?_, ?_⟩
    · rw [pyTailSlice]
      by_cases h0 : tailSize budgetChars = 0
      · rw [if_pos h0]
        exact ⟨[], rfl⟩
      · rw [if_neg h0]
        exact ⟨context.data.take (context.data.length - tailSize budgetChars),
               List.take_append_drop _ _⟩
    · rw [pyTailSlice]
      by_cases h0 : tailSize budgetChars = 0
      · rw [if_pos h0, if_pos h0]
      · rw [if_neg h0, if_neg h0]
        have hdroplen :
            (context.data.drop (context.data.length - tailSize budgetChars)).length
              = context.data.length - (context.data.length - tailSize budgetChars) := by
          simp [List.length_drop]
        rw [show (String.mk (context.data.drop (context.data.length - tailSize budgetChars))).data
              = context.data.drop (context.data.length - tailSize budgetChars) from rfl]
        rw [hdroplen]
        omega

/-- Closed instance of `compress_context_spec` at a 10-character payload
and budget 5 (oversized branch) and at budget 12 (unchanged branch). -/
theorem compress_context_spec_witness :
    (("abcdefghij" : String).length ≤ 12 ∧
      compressContext "abcdefghij" 12 = .unchanged "abcdefghij") ∧
    ((5 : Nat) < ("abcdefghij" : String).length ∧
      ∃ head tail,
        compressContext "abcdefghij" 5 =
          .truncated head tail ("abcdefghij" : String).length 5 ∧
        head.data ++ ("abcdefghij" : String).data.drop (headSize 5) =
          ("abcdefghij" : String).data ∧
        head.data.length = min (headSize 5) ("abcdefghij" : String).data.length ∧
        (∃ pre, pre ++ tail.data = ("abcdefghij" : String).data) ∧
        tail.data.length =
          (if tailSize 5 = 0 then ("abcdefghij" : String).data.length
           else min (tailSize 5) ("abcdefghij" : String).data.length)) :=
  ⟨⟨by decide, (compress_context_spec "abcdefghij" 12).1 (by decide)⟩,
   ⟨by decide, (compress_context_spec "abcdefghij" 5).2 (by decide)⟩⟩

/-- C9: a section draft fails its local verification exactly when its
content density (`key_points + action_items`) is below the plan's minimum
density, or some forbidden term of the plan occurs (case-insensitively) in
the joined section text (summary, key points and action items). -/
theorem filter_isEmpty_eq_false_iff {α : Type} (l : List α) (f : α → Bool) :
    (l.filter f).isEmpty = false ↔ ∃ x ∈ l, f x = true := by
  induction l with
  | nil => simp
  | cons a t ih =>
    by_cases hfa : f a = true
    · simp [List.filter_cons, hfa]
    · simp only [List.filter_cons, if_neg hfa, ih, List.mem_cons]
      constructor
      · rintro ⟨x, hx, hfx⟩
        exact ⟨x, Or.inr hx, hfx⟩
      · rintro ⟨x, hx | hx, hfx⟩
        · subst hx; exact absurd hfx hfa
        · exact ⟨x, hx, hfx⟩

theorem verify_section_draft_iff (draft : SectionDraft) (plan : SectionPlan) :
    (verifySectionDraft draft (some plan)).passed = false ↔
      (draft.keyPoints.length + draft.actionItems.length < plan.minDensity ∨
       ∃ term ∈ plan.forbiddenTerms,
         strContains (combinedDraftText draft) term.toLower = true) := by
  simp only [verifySectionDraft]
  by_cases hd : draft.keyPoints.length + draft.actionItems.length < plan.minDensity
  · simp [hd]
  · simp only [hd, if_false, List.nil_append]
    by_cases hempty : plan.forbiddenTerms.isEmpty = true
    · have hnil : plan.forbiddenTerms = [] := List.isEmpty_iff.mp hempty
      simp [hempty, hnil, hd]
    · rw [show (∃ term ∈ plan.forbiddenTerms,
            strContains (combinedDraftText draft) term.toLower = true) ↔
          ((plan.forbiddenTerms.filter fun term =>
              strContains (combinedDraftText draft) term.toLower).isEmpty = false) from
          (filter_isEmpty_eq_false_iff _ _).symm]
      have hempty' : plan.forbiddenTerms.isEmpty = false := Bool.eq_false_iff.mpr hempty
      by_cases hleak : (plan.forbiddenTerms.filter fun term =>
          strContains (combinedDraftText draft) term.toLower).isEmpty = true
      · simp [hempty', hleak, hd]
      · have hleak' : (plan.forbiddenTerms.filter fun term =>
            strContains (combinedDraftText draft) term.toLower).isEmpty = false :=
          Bool.eq_false_iff.mpr hleak
        simp [hempty', hleak', hd]

theorem startedAt_isSome_applyOps (ops : List StoreOp) :
    ∀ r : JobRow,
      (applyOps ops r).startedAt.isSome = (r.startedAt.isSome || ops.any isMarkRunning) := by
  induction ops with
  | nil => intro r; simp [applyOps]
  | cons op rest ih =>
    intro r
    have hstep : applyOps (op :: rest) r = applyOps rest (applyOp op r) := rfl
    rw [hstep, ih (applyOp op r)]
    cases op with
    | markRunning now => simp [applyOp, isMarkRunning]
    | markSucceeded now res => simp [applyOp, isMarkRunning]
    | markFailed now ec em status stage => simp [applyOp, isMarkRunning]
    | cancelJob now =>
      by_cases hq : r.status = "queued" ∨ r.status = "running" <;>
        simp [applyOp, hq, isMarkRunning]
    | updateStage stage progress => simp [applyOp, isMarkRunning]
    | recoverStale now =>
      by_cases hq : r.status = "queued" ∨ r.status = "running" <;>
        simp [applyOp, hq, isMarkRunning]

theorem startedAt_implies_left_queued (ops : List StoreOp) :
    ∀ r : JobRow, allFailStatusesValid ops = true →
      (r.startedAt.isSome = true → r.status ≠ "queued") →
      (applyOps ops r).startedAt.isSome = true → (applyOps ops r).status ≠ "queued" := by
  induction ops with
  | nil => intro r _ hr; simpa [applyOps] using hr
  | cons op rest ih =>
    intro r hvalid hr
    rw [allFailStatusesValid, List.all_cons, Bool.and_eq_true] at hvalid
    obtain ⟨hop, hrest⟩ := hvalid
    have hstep : applyOps (op :: rest) r = applyOps rest (applyOp op r) := rfl
    rw [hstep]
    refine ih (applyOp op r) hrest ?_
    cases op with
    | markRunning now => simp [applyOp]
    | markSucceeded now res => simp [applyOp]
    | markFailed now ec em status stage =>
      intro _
      have hstatus : ¬ status = "queued" := by
        have hv : validFailStatus status = true := hop
        rw [validFailStatus, Bool.or_eq_true, Bool.or_eq_true] at hv
        rcases hv with (h | h) | h <;>
          · rw [decide_eq_true_eq] at h; subst h; decide
      simpa [applyOp] using hstatus
    | cancelJob now =>
      by_cases hq : r.status = "queued" ∨ r.status = "running" <;>
        (simp [applyOp, hq]; try exact fun h => hr h)
    | updateStage stage progress => simpa [applyOp] using hr
    | recoverStale now =>
      by_cases hq : r.status = "queued" ∨ r.status = "running" <;>
        (simp [applyOp, hq]; try exact fun h => hr h)

/-- C5, refuting the claim as stated: the invariant "`result` is non-null
iff status is `succeeded`" does not hold for every sequence of §4.1
operations — `mark_failed` (job_store.py:363-379) does not clear
`result_json`, so `mark_succeeded` followed by `mark_failed` (the order the
soft-timeout race produces) leaves a `failed` row with a non-null result,
which `get_result` also returns. -/
theorem result_nonnull_iff_succeeded_counterexample :
    ¬ (∀ ops : List StoreOp,
        ((applyOps ops (createdJob "brand_health" 0 "input" none)).result.isSome = true ↔
          (applyOps ops (createdJob "brand_health" 0 "input" none)).status = "succeeded")) := by
  intro h
  have hinst := h [.markSucceeded 1 "result-payload", .markFailed 2 "timeout" "任务超时" "failed" "failed"]
  exact absurd (hinst.mp rfl) (by decide)

/-- C5 (amended): for every sequence of §4.1 store operations in which no
`mark_running`/`mark_failed` follows a `mark_succeeded` and every
`mark_failed` carries one of the non-success terminal statuses — i.e. every
sequence the orchestrator can issue — a job created by `create_job`
satisfies: `result` is non-null iff its status is `succeeded`, and
`get_result` returns null whenever the status is not `succeeded`. -/
theorem result_nonnull_iff_succeeded (reportType inputJson : String)
    (key : Option String) (created : Nat) (ops : List StoreOp)
    (hgood : goodOpsFrom false ops = true) :
    ((applyOps ops (createdJob reportType created inputJson key)).result.isSome = true ↔
      (applyOps ops (createdJob reportType created inputJson key)).status = "succeeded") ∧
    ((applyOps ops (createdJob reportType created inputJson key)).status ≠ "succeeded" →
      getResult (applyOps ops (createdJob reportType created inputJson key)) = none) := by
  have hqs : (createdJob reportType created inputJson key).status = "queued" := rfl
  have hnotsucc : ¬ (createdJob reportType created inputJson key).status = "succeeded" := by
    rw [hqs]; decide
  have hbase : resultInv (createdJob reportType created inputJson key) := by
    constructor
    · intro h
      exact absurd h (by simp [createdJob])
    · intro h
      exact absurd h hnotsucc
  have hinv := resultInv_applyOps ops false (createdJob reportType created inputJson key)
    hgood hbase (fun h => absurd h hnotsucc)
  refine ⟨hinv, ?_⟩
  intro hne
  cases hres : (applyOps ops (createdJob reportType created inputJson key)).result with
  | none => exact hres
  | some v =>
    exact absurd (hinv.mp (by rw [hres]; rfl)) hne

/-- Closed instance of `result_nonnull_iff_succeeded` on the sequence
`mark_running; mark_succeeded`. -/
theorem result_nonnull_iff_succeeded_witness :
    goodOpsFrom false [.markRunning 1, .markSucceeded 2 "result-payload"] = true ∧
    (((applyOps [.markRunning 1, .markSucceeded 2 "result-payload"]
          (createdJob "brand_health" 0 "input" none)).result.isSome = true ↔
        (applyOps [.markRunning 1, .markSucceeded 2 "result-payload"]
          (createdJob "brand_health" 0 "input" none)).status = "succeeded") ∧
      ((applyOps [.markRunning 1, .markSucceeded 2 "result-payload"]
          (createdJob "brand_health" 0 "input" none)).status ≠ "succeeded" →
        getResult (applyOps [.markRunning 1, .markSucceeded 2 "result-payload"]
          (createdJob "brand_health" 0 "input" none)) = none)) :=
  ⟨by decide,
   result_nonnull_iff_succeeded "brand_health" "input" none 0
     [.markRunning 1, .markSucceeded 2 "result-payload"] (by decide)⟩

/-- C6, refuting the claim as stated: `started_at` is *not* set whenever
the status has left `queued` — on the queue-full rejection path the
orchestrator runs `mark_failed(job_id, "queue_full", ...)` on a still-queued
job (orchestrator.py:255) and `mark_failed` never touches `started_at`,
leaving a `failed` row with `started_at` null. -/
theorem started_at_iff_left_queued_counterexample :
    ¬ (∀ ops : List StoreOp, allFailStatusesValid ops = true →
        (((applyOps ops (createdJob "brand_health" 0 "input" none)).startedAt.isSome = true) ↔
          (applyOps ops (createdJob "brand_health" 0 "input" none)).status ≠ "queued")) := by
  intro h
  have hinst := h [.markFailed 1 "queue_full" "任务队列已满" "failed" "failed"] (by decide)
  have h2 := hinst.mpr (by decide)
  exact absurd h2 (by decide)

/-- C6 (amended): over every sequence of §4.1 operations (with
`mark_failed` restricted to its non-success terminal statuses),
`started_at` is set iff some `mark_running` was applied; `started_at` being
set still implies the status has left `queued`, but a job can leave
`queued` (queue-full failure, cancellation while queued, crash recovery)
with `started_at` still null. -/
theorem started_at_iff_mark_running (reportType inputJson : String)
    (key : Option String) (created : Nat) (ops : List StoreOp)
    (hvalid : allFailStatusesValid ops = true) :
    ((applyOps ops (createdJob reportType created inputJson key)).startedAt.isSome =
      ops.any isMarkRunning) ∧
    ((applyOps ops (createdJob reportType created inputJson key)).startedAt.isSome = true →
      (applyOps ops (createdJob reportType created inputJson key)).status ≠ "queued") := by
  constructor
  · rw [startedAt_isSome_applyOps]
    simp [createdJob]
  · refine startedAt_implies_left_queued ops _ hvalid ?_
    intro h
    exact absurd h (by simp [createdJob])

/-- Closed instance of `started_at_iff_mark_running` on the sequence
`mark_running; cancel_job`. -/
theorem started_at_iff_mark_running_witness :
    allFailStatusesValid [.markRunning 1, .cancelJob 2] = true ∧
    (((applyOps [.markRunning 1, .cancelJob 2]
          (createdJob "brand_health" 0 "input" none)).startedAt.isSome =
        ([StoreOp.markRunning 1, .cancelJob 2].any isMarkRunning)) ∧
      ((applyOps [.markRunning 1, .cancelJob 2]
          (createdJob "brand_health" 0 "input" none)).startedAt.isSome = true →
        (applyOps [.markRunning 1, .cancelJob 2]
          (createdJob "brand_health" 0 "input" none)).status ≠ "queued")) :=
  ⟨by decide,
   started_at_iff_mark_running "brand_health" "input" none 0
     [.markRunning 1, .cancelJob 2] (by decide)⟩

/-- One drain step of `_cancel_queued_jobs_due_to_shutdown`. -/
theorem drain_step_lookup (jobs : JobTable) (qid j : String) (now : Nat)
    (ec em st cs : String) :
    alookup (markFailedTable jobs qid now ec em st cs) j =
      (alookup jobs j).map
        (fun r => if j = qid then applyOp (.markFailed now ec em st cs) r else r) :=
  alookup_updateWhere jobs qid _ j

/-- After one drain step targeting any id, a row already carrying the drain
outcome keeps it. -/
theorem drain_preserves_outcome (queue : List String) :
    ∀ (jobs : JobTable) (now : Nat) (j : String) (r : JobRow),
      alookup jobs j = some r → r.status = "cancelled" →
      r.errorCode = some systemShuttingDownCode →
      ∃ r', alookup
          (queue.foldl
            (fun acc jobId =>
              markFailedTable acc jobId now systemShuttingDownCode
                "服务关闭导致任务未开始执行" "cancelled" "cancelled")
            jobs) j = some r' ∧
        r'.status = "cancelled" ∧ r'.errorCode = some systemShuttingDownCode := by
  induction queue with
  | nil => intro jobs now j r hj hs he; exact ⟨r, hj, hs, he⟩
  | cons q rest ih =>
    intro jobs now j r hj hs he
    rw [List.foldl_cons]
    by_cases hq : j = q
    · have hlook : alookup
          (markFailedTable jobs q now systemShuttingDownCode
            "服务关闭导致任务未开始执行" "cancelled" "cancelled") j =
          some (applyOp (.markFailed now systemShuttingDownCode
            "服务关闭导致任务未开始执行" "cancelled" "cancelled") r) := by
        rw [drain_step_lookup, hj]
        simp [hq]
      exact ih _ now j _ hlook rfl rfl
    · have hlook : alookup
          (markFailedTable jobs q now systemShuttingDownCode
            "服务关闭导致任务未开始执行" "cancelled" "cancelled") j = some r := by
        rw [drain_step_lookup, hj]
        simp [hq]
      exact ih _ now j _ hlook hs he

/-- Every id in the drained queue whose row exists ends up cancelled with
the shutdown error code. -/
theorem drain_marks_queue_entries (queue : List String) :
    ∀ (jobs : JobTable) (now : Nat) (j : String) (r : JobRow),
      j ∈ queue → alookup jobs j = some r →
      ∃ r', alookup
          (queue.foldl
            (fun acc jobId =>
              markFailedTable acc jobId now systemShuttingDownCode
                "服务关闭导致任务未开始执行" "cancelled" "cancelled")
            jobs) j = some r' ∧
        r'.status = "cancelled" ∧ r'.errorCode = some systemShuttingDownCode := by
  induction queue with
  | nil => intro jobs now j r hmem; exact absurd hmem (List.not_mem_nil j)
  | cons q rest ih =>
    intro jobs now j r hmem hj
    rw [List.foldl_cons]
    rcases List.mem_cons.mp hmem with heq | hmem'
    · subst heq
      have hlook : alookup
          (markFailedTable jobs j now systemShuttingDownCode
            "服务关闭导致任务未开始执行" "cancelled" "cancelled") j =
          some (applyOp (.markFailed now systemShuttingDownCode
            "服务关闭导致任务未开始执行" "cancelled" "cancelled") r) := by
        rw [drain_step_lookup, hj]
        simp
      exact drain_preserves_outcome rest _ now j _ hlook rfl rfl
    · have hlook : alookup
          (markFailedTable jobs q now systemShuttingDownCode
            "服务关闭导致任务未开始执行" "cancelled" "cancelled") j =
          some (if j = q then
            applyOp (.markFailed now systemShuttingDownCode
              "服务关闭导致任务未开始执行" "cancelled" "cancelled") r
          else r) := by
        rw [drain_step_lookup, hj]
        rfl
      exact ih _ now j _ hmem' hlook

/-- C4, refuting the claim as stated: draining the queue on shutdown marks
a still-queued job with status `"cancelled"` — not `"failed"` — and error
code `"SYSTEM_SHUTTING_DOWN"` (`ErrorCode.SYSTEM_SHUTTING_DOWN.value`) —
not `"service_shutting_down"` — and releases no idempotency claim
(orchestrator.py:129-146 contains no `release_idempotency` call). -/
theorem shutdown_drain_counterexample :
    (∃ r', alookup
        (cancelQueuedJobsDueToShutdown 5
          { jobs := [("j1", createdJob "brand_health" 0 "input" (some "k1"))]
            claims := [("k1", ⟨"payload-hash", "j1", 0, 300⟩)]
            queue := ["j1"] }).jobs "j1" = some r' ∧
      r'.status = "cancelled" ∧ ¬ r'.status = "failed" ∧
      r'.errorCode = some "SYSTEM_SHUTTING_DOWN" ∧
      ¬ r'.errorCode = some "service_shutting_down") ∧
    (cancelQueuedJobsDueToShutdown 5
        { jobs := [("j1", createdJob "brand_health" 0 "input" (some "k1"))]
          claims := [("k1", ⟨"payload-hash", "j1", 0, 300⟩)]
          queue := ["j1"] }).claims =
      [("k1", ⟨"payload-hash", "j1", 0, 300⟩)] := by
  refine ⟨⟨_, rfl, rfl, by decide, rfl, by decide⟩, rfl⟩

/-- C4 (amended): when the shutdown grace period expires with work
remaining, every job still sitting in the queue is marked with status
`cancelled` (terminal) and error code `SYSTEM_SHUTTING_DOWN`, the queue is
emptied, and the idempotency claims are left untouched (they expire via
TTL instead of being released). -/
theorem shutdown_drain_marks_cancelled (now : Nat) (s : DrainState) :
    (cancelQueuedJobsDueToShutdown now s).claims = s.claims ∧
    (cancelQueuedJobsDueToShutdown now s).queue = [] ∧
    (∀ jobId ∈ s.queue, ∀ r, alookup s.jobs jobId = some r →
      ∃ r', alookup (cancelQueuedJobsDueToShutdown now s).jobs jobId = some r' ∧
        r'.status = "cancelled" ∧ r'.errorCode = some systemShuttingDownCode) := by
  refine ⟨rfl, rfl, ?_⟩
  intro jobId hmem r hr
  exact drain_marks_queue_entries s.queue s.jobs now jobId r hmem hr

/-- Closed instance of `shutdown_drain_marks_cancelled` on a one-job
queue. -/
theorem shutdown_drain_marks_cancelled_witness :
    (("j1" : String) ∈ ["j1"] ∧
      alookup [("j1", createdJob "brand_health" 0 "input" (some "k1"))] "j1" =
        some (createdJob "brand_health" 0 "input" (some "k1"))) ∧
    ∃ r', alookup
        (cancelQueuedJobsDueToShutdown 5
          { jobs := [("j1", createdJob "brand_health" 0 "input" (some "k1"))]
            claims := [("k1", ⟨"payload-hash", "j1", 0, 300⟩)]
            queue := ["j1"] }).jobs "j1" = some r' ∧
      r'.status = "cancelled" ∧ r'.errorCode = some systemShuttingDownCode :=
  ⟨⟨by decide, rfl⟩,
   (shutdown_drain_marks_cancelled 5
      { jobs := [("j1", createdJob "brand_health" 0 "input" (some "k1"))]
        claims := [("k1", ⟨"payload-hash", "j1", 0, 300⟩)]
        queue := ["j1"] }).2.2 "j1" (by decide) _ rfl⟩

/-- The first half of C2 holds: once a job's row is `cancelled` with no
pipeline thread started and no handler pending (the state right after
cancelling a still-queued job), every reachable state keeps the row
`cancelled` with no thread — the worker's `_is_cancelled` check skips the
queue entry, so `mark_running` is never executed. -/
theorem cancelled_before_start_stays_cancelled (s s' : CancelModelState)
    (hc : s.row.status = "cancelled") (ht : s.thread = none)
    (hp : s.handlerPending = false)
    (hreach : Relation.ReflTransGen CancelStep s s') :
    s'.row.status = "cancelled" ∧ s'.thread = none ∧ s'.handlerPending = false := by
  induction hreach with
  | refl => exact ⟨hc, ht, hp⟩
  | @tail b c hsteps hstep ih =>
    obtain ⟨ihc, iht, ihp⟩ := ih
    cases hstep with
    | cancelRequest now =>
      have hrow : applyOp (.cancelJob now) b.row = b.row := by
        rw [show applyOp (.cancelJob now) b.row =
            (if b.row.status = "queued" ∨ b.row.status = "running" then
              { b.row with status := "cancelled", finishedAt := some now
                           currentStage := "cancelled", errorCode := some "cancelled"
                           errorMessage := some "Job cancelled by user" }
            else b.row) from rfl]
        rw [if_neg]
        rw [ihc]
        decide
      refine ⟨?_, iht, ?_⟩
      · show (applyOp (.cancelJob now) b.row).status = "cancelled"
        rw [hrow]
        exact ihc
      · show (b.handlerPending ||
          (b.thread.isSome &&
            (b.row.status = "queued" ∨ b.row.status = "running" : Bool))) = false
        rw [iht, ihp]
        rfl
    | dequeueSkip hin hcanc => exact ⟨ihc, iht, ihp⟩
    | dequeueRun hin hnc => exact absurd ihc hnc
    | threadMarkRunning rest now hth => simp [iht] at hth
    | threadCheckCancelled rest hth hcanc => simp [iht] at hth
    | threadCheckClear rest hth hnc => simp [iht] at hth
    | threadMarkSucceeded rest now res hth => simp [iht] at hth
    | cancelHandler now hpend => simp [ihp] at hpend

/-- Corollary: a job cancelled while `queued`, before a worker dequeues
it, never has status `running` in any reachable state. -/
theorem cancelled_while_queued_never_running (s s' : CancelModelState)
    (hc : s.row.status = "cancelled") (ht : s.thread = none)
    (hp : s.handlerPending = false)
    (hreach : Relation.ReflTransGen CancelStep s s') :
    s'.row.status ≠ "running" := by
  intro hrun
  have h := (cancelled_before_start_stays_cancelled s s' hc ht hp hreach).1
  rw [hrun] at h
  exact absurd h (by decide)

/-- C2, the failing trace: from a freshly queued job, the worker dequeues
and runs the pipeline; after the thread passes the last cancellation
checkpoint (orchestrator.py:385) a `cancel_job` arrives while the status
is `running` and flips it to `cancelled`; the `CancelledError` handler
sees the row already cancelled and does nothing; the detached
`asyncio.to_thread` worker then executes the unconditional
`mark_succeeded` (orchestrator.py:567), and the job terminates with
status `succeeded` — contradicting "cancelling a running job results in
eventual status cancelled, never succeeded". -/
theorem cancel_running_job_can_finish_succeeded :
    Relation.ReflTransGen CancelStep c2State0 c2State6 ∧
    c2State6.row.status = "running" ∧
    CancelStep c2State6 c2State7 ∧
    c2State7.row.status = "cancelled" ∧
    Relation.ReflTransGen CancelStep c2State7 c2State9 ∧
    c2State9.row.status = "succeeded" ∧
    c2State9.row.result.isSome = true ∧
    c2State9.thread = none := by
  have h01 : CancelStep c2State0 c2State1 :=
    .dequeueRun c2State0 rfl (by decide)
  have h12 : CancelStep c2State1 c2State2 :=
    .threadMarkRunning c2State1
      [.cancelCheck, .cancelCheck, .cancelCheck, .cancelCheck, .markSucceededStep] 1 rfl
  have h23 : CancelStep c2State2 c2State3 :=
    .threadCheckClear c2State2
      [.cancelCheck, .cancelCheck, .cancelCheck, .markSucceededStep] rfl (by decide)
  have h34 : CancelStep c2State3 c2State4 :=
    .threadCheckClear c2State3
      [.cancelCheck, .cancelCheck, .markSucceededStep] rfl (by decide)
  have h45 : CancelStep c2State4 c2State5 :=
    .threadCheckClear c2State4 [.cancelCheck, .markSucceededStep] rfl (by decide)
  have h56 : CancelStep c2State5 c2State6 :=
    .threadCheckClear c2State5 [.markSucceededStep] rfl (by decide)
  have h67 : CancelStep c2State6 c2State7 :=
    .cancelRequest c2State6 7
  have h78 : CancelStep c2State7 c2State8 :=
    .cancelHandler c2State7 8 (by decide)
  have h89 : CancelStep c2State8 c2State9 :=
    .threadMarkSucceeded c2State8 [] 9 "result-payload" rfl
  refine ⟨?_, by decide, h67, by decide, ?_, by decide, by decide, rfl⟩
  · exact .head h01 (.head h12 (.head h23 (.head h34 (.head h45 (.single h56)))))
  · exact .head h78 (.single h89)

theorem mem_ite_singleton {c : Prop} [Decidable c] {a r : String} :
    r ∈ (if c then [a] else []) ↔ c ∧ r = a := by
  by_cases h : c <;> simp [h]

theorem mem_ite_nil_singleton {c : Prop} [Decidable c] {a r : String} :
    r ∈ (if c then [] else [a]) ↔ ¬c ∧ r = a := by
  by_cases h : c <;> simp [h]

/-- C8: the final quality gate's `passed` flag is true exactly when its
failure list is empty, and each of the eleven checks contributes its named
failure reason independently of the others — a reason is present iff its
own condition is violated, with no short-circuiting between checks.  The
gate is a pure function of its inputs, so determinism is by
construction. -/
theorem run_final_quality_gate_spec (cfg : GateConfig) (inp : GateInput) :
    ((runFinalQualityGate cfg inp).passed = true ↔
      (runFinalQualityGate cfg inp).failures = []) ∧
    ("contains_llm_placeholder" ∈ (runFinalQualityGate cfg inp).failures ↔
      strContains inp.htmlContent "llm-placeholder" = true) ∧
    ("contains_fallback_placeholder_text" ∈ (runFinalQualityGate cfg inp).failures ↔
      (strContains inp.docText "暂时无法生成" = true ∨
       strContains inp.docText "正在生成" = true)) ∧
    ("title_order_mismatch" ∈ (runFinalQualityGate cfg inp).failures ↔
      inp.actualTitles.take inp.expectedTitles.length ≠ inp.expectedTitles) ∧
    ("category_pollution_terms" ∈ (runFinalQualityGate cfg inp).failures ↔
      (isWashcareCategory inp.category = false ∧
       ∃ term ∈ bannedTerms, strContains inp.docText.toLower term = true)) ∧
    ("section_text_too_short" ∈ (runFinalQualityGate cfg inp).failures ↔
      ∃ len ∈ inp.sectionTextLengths, len < cfg.sectionMinTextLen) ∧
    ("draft_verification_failed" ∈ (runFinalQualityGate cfg inp).failures ↔
      ∃ v ∈ inp.draftVerifications, v.passed = false) ∧
    ("template_similarity_high" ∈ (runFinalQualityGate cfg inp).failures ↔
      ∃ d ∈ inp.llmSections, ∃ ratio, d.similarityRatio = some ratio ∧
        cfg.templateSimilarityThreshold ≤ ratio) ∧
    ("missing_inline_sources" ∈ (runFinalQualityGate cfg inp).failures ↔
      ∃ d ∈ inp.llmSections, d.inlineSourceOk = some false) ∧
    ("structure_retention_low" ∈ (runFinalQualityGate cfg inp).failures ↔
      ∃ d ∈ inp.llmSections, ∃ ratio, d.structureRetentionRatio = some ratio ∧
        ratio < cfg.structureFidelityThreshold) ∧
    ("empty_blocks_detected" ∈ (runFinalQualityGate cfg inp).failures ↔
      ∃ d ∈ inp.llmSections, ∃ count, d.emptyBlockCount = some count ∧ 0 < count) ∧
    ("structure_fidelity_low" ∈ (runFinalQualityGate cfg inp).failures ↔
      inp.structureFidelityScore < cfg.structureFidelityThreshold) := by
  refine ⟨?_, ?_, ?_, ?_, ?_, ?_, ?_, ?_, ?_, ?_, ?_, ?_⟩
  · simp only [runFinalQualityGate]
    exact List.isEmpty_iff
  · simp [runFinalQualityGate, List.mem_append, mem_ite_singleton, mem_ite_nil_singleton]
  · simp [runFinalQualityGate, List.mem_append, mem_ite_singleton, mem_ite_nil_singleton]
  · simp [runFinalQualityGate, List.mem_append, mem_ite_singleton, mem_ite_nil_singleton]
  · simp only [runFinalQualityGate, List.mem_append, mem_ite_singleton,
      mem_ite_nil_singleton, Bool.not_eq_true]
    by_cases hw : isWashcareCategory inp.category = true
    · simp [hw]
    · have hw' : isWashcareCategory inp.category = false := Bool.eq_false_iff.mpr hw
      simp only [hw', Bool.false_eq_true, if_false]
      rw [show ((bannedTerms.filter fun term =>
            strContains inp.docText.toLower term).isEmpty = false) ↔
          (∃ term ∈ bannedTerms, strContains inp.docText.toLower term = true) from
        filter_isEmpty_eq_false_iff _ _]
      simp
  · simp [runFinalQualityGate, List.mem_append, mem_ite_singleton,
      mem_ite_nil_singleton, List.any_eq_true]
  · simp only [runFinalQualityGate, List.mem_append, mem_ite_singleton,
      mem_ite_nil_singleton, Bool.not_eq_true]
    rw [show (((inp.draftVerifications.filter fun v => !v.passed).isEmpty = false)) ↔
        (∃ v ∈ inp.draftVerifications, (!v.passed) = true) from
      filter_isEmpty_eq_false_iff _ _]
    simp
  · simp only [runFinalQualityGate, List.mem_append, mem_ite_singleton,
      mem_ite_nil_singleton, Bool.not_eq_true]
    rw [show (((inp.llmSections.filter fun s =>
          match s.similarityRatio with
          | none => false
          | some ratio => decide (cfg.templateSimilarityThreshold ≤ ratio)).isEmpty = false)) ↔
        (∃ d ∈ inp.llmSections,
          (match d.similarityRatio with
           | none => false
           | some ratio => decide (cfg.templateSimilarityThreshold ≤ ratio)) = true) from
      filter_isEmpty_eq_false_iff _ _]
    simp only [show ∀ d : LlmSectionDiag,
        ((match d.similarityRatio with
          | none => false
          | some ratio => decide (cfg.templateSimilarityThreshold ≤ ratio)) = true) ↔
        (∃ ratio, d.similarityRatio = some ratio ∧
          cfg.templateSimilarityThreshold ≤ ratio) from by
      intro d
      cases hd : d.similarityRatio with
      | none => simp
      | some ratio => simp]
    simp
  · simp only [runFinalQualityGate, List.mem_append, mem_ite_singleton,
      mem_ite_nil_singleton, Bool.not_eq_true]
    rw [show (((inp.llmSections.filter fun s =>
          s.inlineSourceOk == some false).isEmpty = false)) ↔
        (∃ d ∈ inp.llmSections, (d.inlineSourceOk == some false) = true) from
      filter_isEmpty_eq_false_iff _ _]
    simp
  · simp only [runFinalQualityGate, List.mem_append, mem_ite_singleton,
      mem_ite_nil_singleton, Bool.not_eq_true]
    rw [show (((inp.llmSections.filter fun s =>
          match s.structureRetentionRatio with
          | none => false
          | some ratio => decide (ratio < cfg.structureFidelityThreshold)).isEmpty = false)) ↔
        (∃ d ∈ inp.llmSections,
          (match d.structureRetentionRatio with
           | none => false
           | some ratio => decide (ratio < cfg.structureFidelityThreshold)) = true) from
      filter_isEmpty_eq_false_iff _ _]
    simp only [show ∀ d : LlmSectionDiag,
        ((match d.structureRetentionRatio with
          | none => false
          | some ratio => decide (ratio < cfg.structureFidelityThreshold)) = true) ↔
        (∃ ratio, d.structureRetentionRatio = some ratio ∧
          ratio < cfg.structureFidelityThreshold) from by
      intro d
      cases hd : d.structureRetentionRatio with
      | none => simp
      | some ratio => simp]
    simp
  · simp only [runFinalQualityGate, List.mem_append, mem_ite_singleton,
      mem_ite_nil_singleton, Bool.not_eq_true]
    rw [show (((inp.llmSections.filter fun s =>
          match s.emptyBlockCount with
          | none => false
          | some count => decide (0 < count)).isEmpty = false)) ↔
        (∃ d ∈ inp.llmSections,
          (match d.emptyBlockCount with
           | none => false
           | some count => decide (0 < count)) = true) from
      filter_isEmpty_eq_false_iff _ _]
    simp only [show ∀ d : LlmSectionDiag,
        ((match d.emptyBlockCount with
          | none => false
          | some count => decide (0 < count)) = true) ↔
        (∃ count, d.emptyBlockCount = some count ∧ 0 < count) from by
      intro d
      cases hd : d.emptyBlockCount with
      | none => simp
      | some count => simp]
    simp
  · simp [runFinalQualityGate, List.mem_append, mem_ite_singleton, mem_ite_nil_singleton]

theorem claimIdempotency_claimed (now ttl : Nat) (key hash jid : String)
    (jobs : JobTable) (claims : ClaimTable)
    (hnok : alookup claims key = none) :
    claimIdempotency now ttl key hash jid jobs claims =
      (⟨.claimed, jid⟩,
       (key, ⟨hash, jid, now, now + max 1 ttl⟩) :: purgeExpired now claims) := by
  simp only [claimIdempotency]
  rw [show alookup (purgeExpired now claims) key = none from
    alookup_filter_none _ _ _ hnok]

theorem claimIdempotency_existing (now ttl : Nat) (key hash jid : String)
    (jobs : JobTable) (claims : ClaimTable) (existing : IdemClaim) (row : JobRow)
    (hsome : alookup (purgeExpired now claims) key = some existing)
    (hjob : alookup jobs existing.jobId = some row) :
    claimIdempotency now ttl key hash jid jobs claims =
      (if existing.payloadHash = hash
        then (⟨.replay, existing.jobId⟩, purgeExpired now claims)
        else (⟨.conflict, existing.jobId⟩, purgeExpired now claims)) := by
  simp only [claimIdempotency, hsome, hjob]

theorem submit_with_key_claimed_ok (st : OrchSubmitState) (spec : ReportJobSpec)
    (key jid : String) (now ttl : Nat)
    (hshut : st.shuttingDown = false)
    (hnok : alookup st.claims key = none)
    (hfresh : alookup st.jobs jid = none)
    (hroom : st.queue.length < st.queueCap) :
    submitBrandHealthJob st spec (some key) jid now ttl =
      (.ok ⟨jid, "queued", spec.reportType, false⟩,
       { st with
           jobs := (jid, createdJob spec.reportType now
                      (canonicalPayloadHash spec) (some key)) :: st.jobs
           claims := (key, ⟨canonicalPayloadHash spec, jid, now, now + max 1 ttl⟩) ::
             purgeExpired now st.claims
           queue := st.queue ++ [(jid, spec)] }) := by
  simp only [submitBrandHealthJob, hshut, Bool.false_eq_true, if_false]
  rw [claimIdempotency_claimed now ttl key (canonicalPayloadHash spec) jid st.jobs st.claims hnok]
  simp only [submitCreatePhase, hfresh]
  rw [if_neg (Nat.not_le.mpr hroom)]

theorem submit_no_key_ok (st : OrchSubmitState) (spec : ReportJobSpec)
    (jid : String) (now ttl : Nat)
    (hshut : st.shuttingDown = false)
    (hfresh : alookup st.jobs jid = none)
    (hroom : st.queue.length < st.queueCap) :
    submitBrandHealthJob st spec none jid now ttl =
      (.ok ⟨jid, "queued", spec.reportType, false⟩,
       { st with
           jobs := (jid, createdJob spec.reportType now
                      (canonicalPayloadHash spec) none) :: st.jobs
           queue := st.queue ++ [(jid, spec)] }) := by
  simp only [submitBrandHealthJob, hshut, Bool.false_eq_true, if_false]
  simp only [submitCreatePhase, hfresh]
  rw [if_neg (Nat.not_le.mpr hroom)]
  rw [hshut]

theorem submit_with_key_replay (st : OrchSubmitState) (spec : ReportJobSpec)
    (key jid : String) (now ttl : Nat) (existing : IdemClaim) (row : JobRow)
    (hshut : st.shuttingDown = false)
    (hsome : alookup (purgeExpired now st.claims) key = some existing)
    (hjob : alookup st.jobs existing.jobId = some row)
    (hhash : existing.payloadHash = canonicalPayloadHash spec) :
    submitBrandHealthJob st spec (some key) jid now ttl =
      (.ok ⟨existing.jobId, row.status, row.reportType, true⟩,
       { st with claims := purgeExpired now st.claims }) := by
  have hclaim := claimIdempotency_existing now ttl key (canonicalPayloadHash spec) jid
    st.jobs st.claims existing row hsome hjob
  rw [if_pos hhash] at hclaim
  simp only [submitBrandHealthJob, hshut, Bool.false_eq_true, if_false, hclaim, hjob]

theorem submit_with_key_conflict (st : OrchSubmitState) (spec : ReportJobSpec)
    (key jid : String) (now ttl : Nat) (existing : IdemClaim) (row : JobRow)
    (hshut : st.shuttingDown = false)
    (hsome : alookup (purgeExpired now st.claims) key = some existing)
    (hjob : alookup st.jobs existing.jobId = some row)
    (hhash : existing.payloadHash ≠ canonicalPayloadHash spec) :
    submitBrandHealthJob st spec (some key) jid now ttl =
      (.error (.idempotencyConflict existing.jobId),
       { st with claims := purgeExpired now st.claims }) := by
  have hclaim := claimIdempotency_existing now ttl key (canonicalPayloadHash spec) jid
    st.jobs st.claims existing row hsome hjob
  rw [if_neg hhash] at hclaim
  simp only [submitBrandHealthJob, hshut, Bool.false_eq_true, if_false, hclaim]

/-- C1: with a live claim absent for `key` and room in the queue, the first
`submit_job(spec, key)` creates exactly one row and returns its fresh
`job_id`; a second submission with the same `(key, spec)` within the TTL
returns the same `job_id` with `idempotent_hit` and leaves the jobs table
and queue untouched; a second submission with the same key but a different
payload raises `IdempotencyConflict` carrying the existing `job_id`,
creates no row, enqueues nothing, and leaves the live claims unchanged
(only opportunistically purging expired ones — the claim for `key` is still
there). -/
theorem submit_job_idempotency
    (st : OrchSubmitState) (spec spec2 : ReportJobSpec) (key jid1 jid2 jid3 : String)
    (now1 now2 ttl : Nat)
    (hshut : st.shuttingDown = false)
    (hnok : alookup st.claims key = none)
    (hfresh : alookup st.jobs jid1 = none)
    (hroom : st.queue.length < st.queueCap)
    (hlive : now2 < now1 + max 1 ttl)
    (hdiff : canonicalPayloadHash spec ≠ canonicalPayloadHash spec2) :
    (submitBrandHealthJob st spec (some key) jid1 now1 ttl).1 =
      .ok ⟨jid1, "queued", spec.reportType, false⟩ ∧
    (submitBrandHealthJob st spec (some key) jid1 now1 ttl).2.jobs =
      (jid1, createdJob spec.reportType now1 (canonicalPayloadHash spec) (some key)) ::
        st.jobs ∧
    ((submitBrandHealthJob (submitBrandHealthJob st spec (some key) jid1 now1 ttl).2
        spec (some key) jid2 now2 ttl).1 =
      .ok ⟨jid1, "queued", spec.reportType, true⟩ ∧
     (submitBrandHealthJob (submitBrandHealthJob st spec (some key) jid1 now1 ttl).2
        spec (some key) jid2 now2 ttl).2.jobs =
      (submitBrandHealthJob st spec (some key) jid1 now1 ttl).2.jobs ∧
     (submitBrandHealthJob (submitBrandHealthJob st spec (some key) jid1 now1 ttl).2
        spec (some key) jid2 now2 ttl).2.queue =
      (submitBrandHealthJob st spec (some key) jid1 now1 ttl).2.queue) ∧
    ((submitBrandHealthJob (submitBrandHealthJob st spec (some key) jid1 now1 ttl).2
        spec2 (some key) jid3 now2 ttl).1 =
      .error (.idempotencyConflict jid1) ∧
     (submitBrandHealthJob (submitBrandHealthJob st spec (some key) jid1 now1 ttl).2
        spec2 (some key) jid3 now2 ttl).2.jobs =
      (submitBrandHealthJob st spec (some key) jid1 now1 ttl).2.jobs ∧
     (submitBrandHealthJob (submitBrandHealthJob st spec (some key) jid1 now1 ttl).2
        spec2 (some key) jid3 now2 ttl).2.queue =
      (submitBrandHealthJob st spec (some key) jid1 now1 ttl).2.queue ∧
     (submitBrandHealthJob (submitBrandHealthJob st spec (some key) jid1 now1 ttl).2
        spec2 (some key) jid3 now2 ttl).2.claims =
      purgeExpired now2 (submitBrandHealthJob st spec (some key) jid1 now1 ttl).2.claims ∧
     alookup (submitBrandHealthJob (submitBrandHealthJob st spec (some key) jid1 now1 ttl).2
        spec2 (some key) jid3 now2 ttl).2.claims key =
      some ⟨canonicalPayloadHash spec, jid1, now1, now1 + max 1 ttl⟩) := by
  have h1 := submit_with_key_claimed_ok st spec key jid1 now1 ttl hshut hnok hfresh hroom
  rw [h1]
  have hpe2 : purgeExpired now2
      ((key, (⟨canonicalPayloadHash spec, jid1, now1, now1 + max 1 ttl⟩ : IdemClaim)) ::
        purgeExpired now1 st.claims) =
      (key, (⟨canonicalPayloadHash spec, jid1, now1, now1 + max 1 ttl⟩ : IdemClaim)) ::
        purgeExpired now2 (purgeExpired now1 st.claims) :=
    List.filter_cons_of_pos (decide_eq_true hlive)
  have hsome2 : alookup (purgeExpired now2
      ((key, (⟨canonicalPayloadHash spec, jid1, now1, now1 + max 1 ttl⟩ : IdemClaim)) ::
        purgeExpired now1 st.claims)) key =
      some ⟨canonicalPayloadHash spec, jid1, now1, now1 + max 1 ttl⟩ := by
    rw [hpe2]
    exact alookup_cons_self _ _ _
  have hjob2 : alookup
      ((jid1, createdJob spec.reportType now1 (canonicalPayloadHash spec) (some key)) ::
        st.jobs) jid1 =
      some (createdJob spec.reportType now1 (canonicalPayloadHash spec) (some key)) :=
    alookup_cons_self _ _ _
  refine ⟨rfl, rfl, ?_, ?_⟩
  · have h2 := submit_with_key_replay
      { st with
          jobs := (jid1, createdJob spec.reportType now1
                    (canonicalPayloadHash spec) (some key)) :: st.jobs
          claims := (key, ⟨canonicalPayloadHash spec, jid1, now1, now1 + max 1 ttl⟩) ::
            purgeExpired now1 st.claims
          queue := st.queue ++ [(jid1, spec)] }
      spec key jid2 now2 ttl
      ⟨canonicalPayloadHash spec, jid1, now1, now1 + max 1 ttl⟩
      (createdJob spec.reportType now1 (canonicalPayloadHash spec) (some key))
      hshut hsome2 hjob2 rfl
    rw [h2]
    exact ⟨rfl, rfl, rfl⟩
  · have h2 := submit_with_key_conflict
      { st with
          jobs := (jid1, createdJob spec.reportType now1
                    (canonicalPayloadHash spec) (some key)) :: st.jobs
          claims := (key, ⟨canonicalPayloadHash spec, jid1, now1, now1 + max 1 ttl⟩) ::
            purgeExpired now1 st.claims
          queue := st.queue ++ [(jid1, spec)] }
      spec2 key jid3 now2 ttl
      ⟨canonicalPayloadHash spec, jid1, now1, now1 + max 1 ttl⟩
      (createdJob spec.reportType now1 (canonicalPayloadHash spec) (some key))
      hshut hsome2 hjob2 hdiff
    rw [h2]
    exact ⟨rfl, rfl, rfl, rfl, hsome2⟩

/-- Closed instance of `submit_job_idempotency`: fresh orchestrator state,
two submissions of the same spec under key `idem-key-1`, then one with the
category changed. -/
theorem submit_job_idempotency_witness :
    ((⟨[], [], [], 10, false⟩ : OrchSubmitState).shuttingDown = false ∧
     alookup (⟨[], [], [], 10, false⟩ : OrchSubmitState).claims "idem-key-1" = none ∧
     alookup (⟨[], [], [], 10, false⟩ : OrchSubmitState).jobs "job-1" = none ∧
     (⟨[], [], [], 10, false⟩ : OrchSubmitState).queue.length <
       (⟨[], [], [], 10, false⟩ : OrchSubmitState).queueCap ∧
     (100 : Nat) < 0 + max 1 300 ∧
     canonicalPayloadHash
         ⟨"brand_health", "Acme", "耳机", ["X", "Y"], "海飞丝.html", true, false, true⟩ ≠
       canonicalPayloadHash
         ⟨"brand_health", "Acme", "手机", ["X", "Y"], "海飞丝.html", true, false, true⟩) ∧
    (submitBrandHealthJob (⟨[], [], [], 10, false⟩ : OrchSubmitState)
        ⟨"brand_health", "Acme", "耳机", ["X", "Y"], "海飞丝.html", true, false, true⟩
        (some "idem-key-1") "job-1" 0 300).1 =
      .ok ⟨"job-1", "queued", "brand_health", false⟩ ∧
    (submitBrandHealthJob
        (submitBrandHealthJob (⟨[], [], [], 10, false⟩ : OrchSubmitState)
          ⟨"brand_health", "Acme", "耳机", ["X", "Y"], "海飞丝.html", true, false, true⟩
          (some "idem-key-1") "job-1" 0 300).2
        ⟨"brand_health", "Acme", "耳机", ["X", "Y"], "海飞丝.html", true, false, true⟩
        (some "idem-key-1") "job-2" 100 300).1 =
      .ok ⟨"job-1", "queued", "brand_health", true⟩ ∧
    (submitBrandHealthJob
        (submitBrandHealthJob (⟨[], [], [], 10, false⟩ : OrchSubmitState)
          ⟨"brand_health", "Acme", "耳机", ["X", "Y"], "海飞丝.html", true, false, true⟩
          (some "idem-key-1") "job-1" 0 300).2
        ⟨"brand_health", "Acme", "手机", ["X", "Y"], "海飞丝.html", true, false, true⟩
        (some "idem-key-1") "job-3" 100 300).1 =
      .error (.idempotencyConflict "job-1") := by
  have h := submit_job_idempotency ⟨[], [], [], 10, false⟩
    ⟨"brand_health", "Acme", "耳机", ["X", "Y"], "海飞丝.html", true, false, true⟩
    ⟨"brand_health", "Acme", "手机", ["X", "Y"], "海飞丝.html", true, false, true⟩
    "idem-key-1" "job-1" "job-2" "job-3" 0 100 300
    rfl rfl rfl (by decide) (by decide) (by decide)
  exact ⟨⟨rfl, rfl, rfl, by decide, by decide, by decide⟩, h.1, h.2.2.1.1, h.2.2.2.1⟩

theorem submitMany_fills (jids : List String) :
    ∀ (st : OrchSubmitState) (spec : ReportJobSpec) (now ttl : Nat),
      st.shuttingDown = false →
      jids.Nodup →
      (∀ j ∈ jids, alookup st.jobs j = none) →
      st.queue.length + jids.length ≤ st.queueCap →
      (submitMany st jids spec now ttl).jobs.length = st.jobs.length + jids.length ∧
      (submitMany st jids spec now ttl).queue.length = st.queue.length + jids.length ∧
      (submitMany st jids spec now ttl).claims = st.claims ∧
      (submitMany st jids spec now ttl).queueCap = st.queueCap ∧
      (submitMany st jids spec now ttl).shuttingDown = false ∧
      (∀ j, j ∉ jids → alookup st.jobs j = none →
        alookup (submitMany st jids spec now ttl).jobs j = none) := by
  induction jids with
  | nil =>
    intro st spec now ttl hshut _ _ _
    exact ⟨rfl, rfl, rfl, rfl, hshut, fun j _ hj => hj⟩
  | cons j0 rest ih =>
    intro st spec now ttl hshut hnodup hfresh hlen
    obtain ⟨hnd0, hndrest⟩ := List.nodup_cons.mp hnodup
    have hfresh0 : alookup st.jobs j0 = none := hfresh j0 (List.mem_cons_self j0 rest)
    have hroom : st.queue.length < st.queueCap := by
      rw [List.length_cons] at hlen
      omega
    have hstep := submit_no_key_ok st spec j0 now ttl hshut hfresh0 hroom
    have hunfold : submitMany st (j0 :: rest) spec now ttl =
        submitMany (submitBrandHealthJob st spec none j0 now ttl).2 rest spec now ttl := rfl
    rw [hunfold, hstep]
    have hfreshrest : ∀ j ∈ rest,
        alookup ((j0, createdJob spec.reportType now (canonicalPayloadHash spec) none)
          :: st.jobs) j = none := by
      intro j hj
      have hne : ¬ j0 = j := fun he => hnd0 (he ▸ hj)
      rw [alookup, if_neg hne]
      exact hfresh j (List.mem_cons_of_mem j0 hj)
    have hlenrest : (st.queue ++ [(j0, spec)]).length + rest.length ≤ st.queueCap := by
      simp only [List.length_append, List.length_cons, List.length_nil]
      rw [List.length_cons] at hlen
      omega
    have ihres := ih
      { st with
          jobs := (j0, createdJob spec.reportType now (canonicalPayloadHash spec) none)
            :: st.jobs
          queue := st.queue ++ [(j0, spec)] }
      spec now ttl hshut hndrest hfreshrest hlenrest
    obtain ⟨ih1, ih2, ih3, ih4, ih5, ih6⟩ := ihres
    refine ⟨?_, ?_, ih3, ih4, ih5, ?_⟩
    · rw [ih1]
      simp only [List.length_cons]
      omega
    · rw [ih2]
      simp only [List.length_append, List.length_cons, List.length_nil]
      omega
    · intro j hnotin hj
      have hne : ¬ j0 = j := fun he => hnotin (he ▸ List.mem_cons_self j0 rest)
      refine ih6 j (fun hr => hnotin (List.mem_cons_of_mem j0 hr)) ?_
      rw [alookup, if_neg hne]
      exact hj

theorem submit_with_key_queue_full (st : OrchSubmitState) (spec : ReportJobSpec)
    (key jid : String) (now ttl : Nat)
    (hshut : st.shuttingDown = false)
    (hnok : alookup st.claims key = none)
    (hfresh : alookup st.jobs jid = none)
    (hfull : st.queueCap ≤ st.queue.length) :
    submitBrandHealthJob st spec (some key) jid now ttl =
      (.error (.queueFull 30),
       { st with
           jobs := markFailedTable
             ((jid, createdJob spec.reportType now (canonicalPayloadHash spec) (some key))
               :: st.jobs)
             jid now "queue_full" "任务队列已满" "failed" "failed"
           claims := releaseIdempotency
             ((key, ⟨canonicalPayloadHash spec, jid, now, now + max 1 ttl⟩) ::
               purgeExpired now st.claims) key (some jid) }) := by
  simp only [submitBrandHealthJob, hshut, Bool.false_eq_true, if_false]
  rw [claimIdempotency_claimed now ttl key (canonicalPayloadHash spec) jid st.jobs st.claims hnok]
  simp only [submitCreatePhase, hfresh]
  rw [if_pos hfull]

/-- C3: starting from an empty queue of capacity K, K key-less submissions
of distinct fresh job ids all enter the queue (its length reaches K), and
the (K+1)th submission fails with `QueueFull` carrying the 30-second
retry-after hint, leaves its job row recorded with status `failed` and
error code `queue_full`, and releases the idempotency claim made for it. -/
theorem submit_queue_full_rejection
    (st : OrchSubmitState) (jids : List String) (spec specK : ReportJobSpec)
    (key jidK : String) (now ttl : Nat)
    (hshut : st.shuttingDown = false)
    (hq0 : st.queue = [])
    (hcap : jids.length = st.queueCap)
    (_hcappos : 0 < st.queueCap)
    (hnodup : jids.Nodup)
    (hfresh : ∀ j ∈ jids, alookup st.jobs j = none)
    (hKnotin : jidK ∉ jids)
    (hKfresh : alookup st.jobs jidK = none)
    (hkey : alookup st.claims key = none) :
    (submitMany st jids spec now ttl).queue.length = st.queueCap ∧
    (submitBrandHealthJob (submitMany st jids spec now ttl) specK (some key)
        jidK now ttl).1 = .error (.queueFull 30) ∧
    (∃ row, alookup (submitBrandHealthJob (submitMany st jids spec now ttl) specK (some key)
        jidK now ttl).2.jobs jidK = some row ∧
      row.status = "failed" ∧ row.errorCode = some "queue_full") ∧
    alookup (submitBrandHealthJob (submitMany st jids spec now ttl) specK (some key)
        jidK now ttl).2.claims key = none := by
  have hlen : st.queue.length + jids.length ≤ st.queueCap := by
    rw [hq0, hcap]
    simp
  obtain ⟨f1, f2, f3, f4, f5, f6⟩ := submitMany_fills jids st spec now ttl hshut hnodup hfresh hlen
  have hqlen : (submitMany st jids spec now ttl).queue.length = st.queueCap := by
    rw [f2, hq0, hcap]
    simp
  have hKfresh' : alookup (submitMany st jids spec now ttl).jobs jidK = none :=
    f6 jidK hKnotin hKfresh
  have hnok' : alookup (submitMany st jids spec now ttl).claims key = none := by
    rw [f3]
    exact hkey
  have hfull : (submitMany st jids spec now ttl).queueCap ≤
      (submitMany st jids spec now ttl).queue.length := by
    rw [hqlen, f4]
  have hreject := submit_with_key_queue_full (submitMany st jids spec now ttl) specK key jidK
    now ttl f5 hnok' hKfresh' hfull
  rw [hreject]
  refine ⟨hqlen, rfl, ?_, ?_⟩
  · refine ⟨applyOp (.markFailed now "queue_full" "任务队列已满" "failed" "failed")
      (createdJob specK.reportType now (canonicalPayloadHash specK) (some key)), ?_, rfl, rfl⟩
    show alookup (markFailedTable
      ((jidK, createdJob specK.reportType now (canonicalPayloadHash specK) (some key))
        :: (submitMany st jids spec now ttl).jobs)
      jidK now "queue_full" "任务队列已满" "failed" "failed") jidK = _
    rw [markFailedTable, alookup_updateWhere, alookup_cons_self]
    simp
  · show alookup (releaseIdempotency
      ((key, ⟨canonicalPayloadHash specK, jidK, now, now + max 1 ttl⟩) ::
        purgeExpired now (submitMany st jids spec now ttl).claims) key (some jidK)) key = none
    rw [releaseIdempotency]
    rw [List.filter_cons_of_neg (by simp)]
    refine alookup_filter_none _ _ _ ?_
    refine alookup_filter_none _ _ _ ?_
    rw [f3]
    exact hkey

/-- Closed instance of `submit_queue_full_rejection`: capacity 1, one
filling submission, then a keyed submission that is rejected. -/
theorem submit_queue_full_rejection_witness :
    ((⟨[], [], [], 1, false⟩ : OrchSubmitState).shuttingDown = false ∧
     (⟨[], [], [], 1, false⟩ : OrchSubmitState).queue = [] ∧
     (["jq-1"] : List String).length = (⟨[], [], [], 1, false⟩ : OrchSubmitState).queueCap ∧
     0 < (⟨[], [], [], 1, false⟩ : OrchSubmitState).queueCap ∧
     (["jq-1"] : List String).Nodup ∧
     (∀ j ∈ (["jq-1"] : List String),
       alookup (⟨[], [], [], 1, false⟩ : OrchSubmitState).jobs j = none) ∧
     ("jq-2" : String) ∉ (["jq-1"] : List String) ∧
     alookup (⟨[], [], [], 1, false⟩ : OrchSubmitState).jobs "jq-2" = none ∧
     alookup (⟨[], [], [], 1, false⟩ : OrchSubmitState).claims "k-full" = none) ∧
    (submitMany (⟨[], [], [], 1, false⟩ : OrchSubmitState) ["jq-1"]
        ⟨"brand_health", "Acme", "耳机", [], "海飞丝.html", true, false, true⟩ 0 300).queue.length =
      (⟨[], [], [], 1, false⟩ : OrchSubmitState).queueCap ∧
    (submitBrandHealthJob
        (submitMany (⟨[], [], [], 1, false⟩ : OrchSubmitState) ["jq-1"]
          ⟨"brand_health", "Acme", "耳机", [], "海飞丝.html", true, false, true⟩ 0 300)
        ⟨"brand_health", "Beta", "耳机", [], "海飞丝.html", true, false, true⟩
        (some "k-full") "jq-2" 0 300).1 = .error (.queueFull 30) ∧
    (∃ row, alookup (submitBrandHealthJob
        (submitMany (⟨[], [], [], 1, false⟩ : OrchSubmitState) ["jq-1"]
          ⟨"brand_health", "Acme", "耳机", [], "海飞丝.html", true, false, true⟩ 0 300)
        ⟨"brand_health", "Beta", "耳机", [], "海飞丝.html", true, false, true⟩
        (some "k-full") "jq-2" 0 300).2.jobs "jq-2" = some row ∧
      row.status = "failed" ∧ row.errorCode = some "queue_full") ∧
    alookup (submitBrandHealthJob
        (submitMany (⟨[], [], [], 1, false⟩ : OrchSubmitState) ["jq-1"]
          ⟨"brand_health", "Acme", "耳机", [], "海飞丝.html", true, false, true⟩ 0 300)
        ⟨"brand_health", "Beta", "耳机", [], "海飞丝.html", true, false, true⟩
        (some "k-full") "jq-2" 0 300).2.claims "k-full" = none := by
  have h := submit_queue_full_rejection ⟨[], [], [], 1, false⟩ ["jq-1"]
    ⟨"brand_health", "Acme", "耳机", [], "海飞丝.html", true, false, true⟩
    ⟨"brand_health", "Beta", "耳机", [], "海飞丝.html", true, false, true⟩
    "k-full" "jq-2" 0 300
    rfl rfl rfl (by decide) (by decide) (fun j _ => rfl) (by decide) rfl rfl
  exact ⟨⟨rfl, rfl, rfl, by decide, by decide, fun j _ => rfl, by decide, rfl, rfl⟩,
    h.1, h.2.1, h.2.2.1, h.2.2.2⟩

end MarketInsight
